import Mathlib

/-!
Shallow embedding of the Jerixo/ArquitecturaDeComputadoresCR3-Parcial
simulator, together with theorems settling the frozen claims about it.

The repository contains two copies of a five-stage pipelined CPU simulator
(`src/CPU/src/pipeline.py`, here namespace `CPUv1`, and
`src/CPU-Pipeline/src/pipeline.py`, here namespace `CPUv2`), a hazard and
forwarding unit (`src/CPU-Pipeline/src/hazard_control.py`, namespace
`HazardControl`), an instruction encoder/decoder (`src/CPU/src/isa.py`,
namespace `ISA`) and two cache simulators
(`src/Simulación de Interfaz E_S y Memoria en Python/cache_simulator.py`,
namespaces `CacheMapeoDirecto` and `CacheAsociativaConjuntos`).

Python integers are modelled by `Int` (registers, memory words, ALU
results) and `Nat` (indices, counters, program counter).  Python
dictionaries representing instructions are modelled by the record `Instr`
whose optional fields mirror the optional dictionary keys; per the data
model of the system, register fields hold indices 0..31 (natural numbers)
and branch targets are absolute instruction indices (natural numbers).
Mutation is modelled by explicit state passing: every Python method that
mutates `self` becomes a function `State → State` returning the updated
state, and the statements of a method body are composed in source order.
-/

/-- Operation kinds of the ISA.  `NOP` is the record produced by
`decode_instruction` for an unknown opcode; the pipeline treats it as an
instruction with no effect (it falls through every `if`/`elif` chain). -/
inductive Op where
  | ADD | SUB | MUL | LOAD | STORE | BEQ | JUMP | NOP
deriving DecidableEq, Repr

/-- An instruction record: a Python dict with an `op` key and a subset of
the keys `rd`, `rs1`, `rs2`, `rs`, `addr`, `immediate`, `target`.  A field
whose key is absent from the dict is `none`.  Register fields are indices
(`Nat`, 0..31 per the data model); `addr`/`immediate` are Python ints
(`Int`); `target` is an absolute instruction index (`Nat`). -/
structure Instr where
  op : Op
  rd : Option Nat := none
  rs1 : Option Nat := none
  rs2 : Option Nat := none
  rs : Option Nat := none
  addr : Option Int := none
  immediate : Option Int := none
  target : Option Nat := none
deriving DecidableEq, Repr

/-- The `NOP` record `{"op": "NOP"}`. -/
def nopInstr : Instr := { op := Op.NOP }

/-- The IF/ID latch: `{"valid": ..., "instruction": ..., "pc": ...}`. -/
structure IFID where
  valid : Bool
  instruction : Option Instr
  pc : Nat
deriving DecidableEq, Repr

/-- The ID/EX latch:
`{"valid", "instruction", "rs1_value", "rs2_value", "immediate"}`. -/
structure IDEX where
  valid : Bool
  instruction : Option Instr
  rs1_value : Int
  rs2_value : Int
  immediate : Int
deriving DecidableEq, Repr

/-- The EX/MEM latch: `{"valid", "instruction", "alu_result", "rs2_value"}`. -/
structure EXMEM where
  valid : Bool
  instruction : Option Instr
  alu_result : Int
  rs2_value : Int
deriving DecidableEq, Repr

/-- The MEM/WB latch: `{"valid", "instruction", "result"}`. -/
structure MEMWB where
  valid : Bool
  instruction : Option Instr
  result : Int
deriving DecidableEq, Repr

/-- The visualisation dictionary `self.pipeline`, with one entry per stage.
The `run` loop's guard reads it, so it is part of the observable state. -/
structure View where
  vIF : Option Instr
  vID : Option Instr
  vEX : Option Instr
  vMEM : Option Instr
  vWB : Option Instr
deriving DecidableEq, Repr

/-- The empty visualisation dictionary (all stages `None`). -/
def View.empty : View := ⟨none, none, none, none, none⟩

/-- Full processor state, the mutable attributes of `PipelineCPU`. -/
structure CPUState where
  cycles : Nat
  instructions_completed : Nat
  stalls_inserted : Nat
  branches_taken : Nat
  if_id : IFID
  id_ex : IDEX
  ex_mem : EXMEM
  mem_wb : MEMWB
  view : View
  pc : Nat
  registers : List Int
  memory : List Int
  instructions : List Instr
  stall : Bool
  flush : Bool
deriving DecidableEq, Repr

namespace HazardControl

/-!
Embedding of `src/CPU-Pipeline/src/hazard_control.py`.

`src/CPU/src/pipeline.py` imports an identical-interface `hazard_control`
module that is not present under `src/`; the specification (§4.2) describes
its two queries, and the description coincides with the implementation in
`src/CPU-Pipeline/src/hazard_control.py`, so both pipelines below use the
functions of this namespace.  (Definitions here are translated from
`src/CPU-Pipeline/src/hazard_control.py`; for the `CPU` variant they are
additionally modelled from the spec: the missing file is
`src/CPU/src/hazard_control.py`.)
-/

/-- `instruction.get("rs1", -1)`: a missing source field reads as `-1`. -/
def srcOr (o : Option Nat) : Int :=
  match o with
  | some r => (r : Int)
  | none => -1

/-- `HazardControl.detect_hazards(if_id, id_ex, ex_mem)`.  The `ex_mem`
argument is accepted but never read, exactly as in the source. -/
def detect_hazards (if_id : IFID) (id_ex : IDEX) (_ex_mem : EXMEM) : Bool :=
  match if_id.valid, if_id.instruction with
  | true, some instruction =>
    let rs1 : Int := srcOr instruction.rs1
    let rs2 : Int := srcOr instruction.rs2
    if rs1 = -1 ∧ rs2 = -1 then false
    else
      match id_ex.valid, id_ex.instruction with
      | true, some id_ex_instr =>
        if id_ex_instr.op = Op.LOAD then
          match id_ex_instr.rd with
          | some rd => decide (rd ≠ 0 ∧ ((rd : Int) = rs1 ∨ (rd : Int) = rs2))
          | none => false
        else false
      | _, _ => false
  | _, _ => false

/-- The forwarding signal strings `"none"`, `"ex_mem"`, `"mem_wb"`. -/
inductive Sig where
  | sigNone | sigExMem | sigMemWb
deriving DecidableEq, Repr

/-- `HazardControl.get_forwarding_signals(id_ex, ex_mem, mem_wb)`. -/
def get_forwarding_signals (id_ex : IDEX) (ex_mem : EXMEM) (mem_wb : MEMWB) :
    Sig × Sig :=
  match id_ex.valid, id_ex.instruction with
  | true, some instruction =>
    let rs1 : Int := srcOr instruction.rs1
    let rs2 : Int := srcOr instruction.rs2
    let fromExMem : Sig × Sig :=
      match ex_mem.valid, ex_mem.instruction with
      | true, some ex_mem_instr =>
        if (ex_mem_instr.op = Op.ADD ∨ ex_mem_instr.op = Op.SUB ∨
            ex_mem_instr.op = Op.MUL ∨ ex_mem_instr.op = Op.LOAD) then
          match ex_mem_instr.rd with
          | some rd =>
            if rd ≠ 0 then
              ((if (rd : Int) = rs1 then Sig.sigExMem else Sig.sigNone),
               (if (rd : Int) = rs2 then Sig.sigExMem else Sig.sigNone))
            else (Sig.sigNone, Sig.sigNone)
          | none => (Sig.sigNone, Sig.sigNone)
        else (Sig.sigNone, Sig.sigNone)
      | _, _ => (Sig.sigNone, Sig.sigNone)
    let forward_rs1 := fromExMem.1
    let forward_rs2 := fromExMem.2
    match mem_wb.valid, mem_wb.instruction with
    | true, some mem_wb_instr =>
      if (mem_wb_instr.op = Op.ADD ∨ mem_wb_instr.op = Op.SUB ∨
          mem_wb_instr.op = Op.MUL ∨ mem_wb_instr.op = Op.LOAD) then
        match mem_wb_instr.rd with
        | some rd =>
          if rd ≠ 0 then
            ((if (rd : Int) = rs1 ∧ forward_rs1 = Sig.sigNone then Sig.sigMemWb
              else forward_rs1),
             (if (rd : Int) = rs2 ∧ forward_rs2 = Sig.sigNone then Sig.sigMemWb
              else forward_rs2))
          else (forward_rs1, forward_rs2)
        | none => (forward_rs1, forward_rs2)
      else (forward_rs1, forward_rs2)
    | _, _ => (forward_rs1, forward_rs2)
  | _, _ => (Sig.sigNone, Sig.sigNone)

/-- `HazardControl.apply_forwarding(id_ex, ex_mem, mem_wb)`: starting from
the latched operand values, substitute forwarded values per the signals.
When a signal is `"ex_mem"` the source reads `ex_mem["instruction"]["op"]`;
a signal of `"ex_mem"` implies that instruction is present, so the `none`
branch below (unreachable) keeps the latched value. -/
def apply_forwarding (id_ex : IDEX) (ex_mem : EXMEM) (mem_wb : MEMWB) :
    Int × Int :=
  let rs1_value := id_ex.rs1_value
  let rs2_value := id_ex.rs2_value
  let sigs := get_forwarding_signals id_ex ex_mem mem_wb
  let rs1_value :=
    match sigs.1 with
    | Sig.sigExMem =>
      match ex_mem.instruction with
      | some i => if i.op ≠ Op.LOAD then ex_mem.alu_result else rs1_value
      | none => rs1_value
    | Sig.sigMemWb => mem_wb.result
    | Sig.sigNone => rs1_value
  let rs2_value :=
    match sigs.2 with
    | Sig.sigExMem =>
      match ex_mem.instruction with
      | some i => if i.op ≠ Op.LOAD then ex_mem.alu_result else rs2_value
      | none => rs2_value
    | Sig.sigMemWb => mem_wb.result
    | Sig.sigNone => rs2_value
  (rs1_value, rs2_value)

end HazardControl

namespace CPUv2

/-!
Embedding of `src/CPU-Pipeline/src/pipeline.py` (`class PipelineCPU`).
Each stage method becomes a function `CPUState → CPUState`; the branches of
each method body appear in source order and each branch produces a single
record update.  A latch whose `valid` flag is true always carries an
instruction in every state the simulator constructs; the `none` sub-branches
below (where `valid` is true but `instruction` is absent, on which the
Python would raise) conservatively act as on an invalid latch.
-/

/-- `fetch_stage`. -/
def fetch_stage (s : CPUState) : CPUState :=
  if s.stall then s
  else if s.pc < s.instructions.length then
    let instruction := s.instructions.getD s.pc nopInstr
    { s with
      if_id := ⟨true, some instruction, s.pc⟩,
      pc := s.pc + 1,
      view := { s.view with vIF := some instruction } }
  else
    { s with
      if_id := ⟨false, none, s.pc⟩,
      view := { s.view with vIF := none } }

/-- `decode_stage`. -/
def decode_stage (s : CPUState) : CPUState :=
  if s.flush then
    { s with
      if_id := ⟨false, none, s.pc⟩,
      view := { s.view with vID := none } }
  else if ¬ s.if_id.valid then
    { s with
      id_ex := ⟨false, none, 0, 0, 0⟩,
      view := { s.view with vID := none } }
  else
    match s.if_id.instruction with
    | none =>
      { s with
        id_ex := ⟨false, none, 0, 0, 0⟩,
        view := { s.view with vID := none } }
    | some instruction =>
      let stall := HazardControl.detect_hazards s.if_id s.id_ex s.ex_mem
      if stall then
        { s with
          view := { s.view with vID := some instruction },
          stall := stall,
          stalls_inserted := s.stalls_inserted + 1,
          id_ex := ⟨false, none, 0, 0, 0⟩ }
      else
        let rs1_value : Int :=
          match instruction.rs1 with
          | some r => s.registers.getD r 0
          | none => 0
        let rs2_value : Int :=
          match instruction.rs2 with
          | some r => s.registers.getD r 0
          | none => 0
        let immediate : Int :=
          match instruction.immediate with
          | some i => i
          | none =>
            match instruction.addr with
            | some a => a
            | none => 0
        { s with
          view := { s.view with vID := some instruction },
          stall := stall,
          id_ex := ⟨true, some instruction, rs1_value, rs2_value, immediate⟩ }

/-- `execute_stage`.  On a taken `BEQ` or a `JUMP` this variant updates the
pc, raises `flush`, counts the branch and invalidates IF/ID inside the
stage itself. -/
def execute_stage (s : CPUState) : CPUState :=
  if ¬ s.id_ex.valid then
    { s with
      ex_mem := ⟨false, none, 0, 0⟩,
      view := { s.view with vEX := none } }
  else
    match s.id_ex.instruction with
    | none =>
      { s with
        ex_mem := ⟨false, none, 0, 0⟩,
        view := { s.view with vEX := none } }
    | some instruction =>
      let fwd := HazardControl.apply_forwarding s.id_ex s.ex_mem s.mem_wb
      let rs1_value := fwd.1
      let rs2_value := fwd.2
      match instruction.op with
      | Op.ADD =>
        { s with
          view := { s.view with vEX := some instruction },
          ex_mem := ⟨true, some instruction, rs1_value + rs2_value, rs2_value⟩ }
      | Op.SUB =>
        { s with
          view := { s.view with vEX := some instruction },
          ex_mem := ⟨true, some instruction, rs1_value - rs2_value, rs2_value⟩ }
      | Op.MUL =>
        { s with
          view := { s.view with vEX := some instruction },
          ex_mem := ⟨true, some instruction, rs1_value * rs2_value, rs2_value⟩ }
      | Op.LOAD =>
        { s with
          view := { s.view with vEX := some instruction },
          ex_mem := ⟨true, some instruction, s.id_ex.immediate, rs2_value⟩ }
      | Op.STORE =>
        { s with
          view := { s.view with vEX := some instruction },
          ex_mem := ⟨true, some instruction, s.id_ex.immediate, rs2_value⟩ }
      | Op.BEQ =>
        if rs1_value = rs2_value then
          let t := instruction.target.getD 0
          { s with
            pc := t,
            flush := true,
            branches_taken := s.branches_taken + 1,
            if_id := ⟨false, none, t⟩,
            view := { s.view with vIF := none, vID := none, vEX := some instruction },
            ex_mem := ⟨true, some instruction, 1, rs2_value⟩ }
        else
          { s with
            view := { s.view with vEX := some instruction },
            ex_mem := ⟨true, some instruction, 0, rs2_value⟩ }
      | Op.JUMP =>
        let t := instruction.target.getD 0
        { s with
          pc := t,
          flush := true,
          branches_taken := s.branches_taken + 1,
          if_id := ⟨false, none, t⟩,
          view := { s.view with vIF := none, vID := none, vEX := some instruction },
          ex_mem := ⟨true, some instruction, 0, rs2_value⟩ }
      | Op.NOP =>
        { s with
          view := { s.view with vEX := some instruction },
          ex_mem := ⟨true, some instruction, 0, rs2_value⟩ }

/-- `memory_stage`.  Out-of-range addresses are silently skipped. -/
def memory_stage (s : CPUState) : CPUState :=
  if ¬ s.ex_mem.valid then
    { s with
      mem_wb := ⟨false, none, 0⟩,
      view := { s.view with vMEM := none } }
  else
    match s.ex_mem.instruction with
    | none =>
      { s with
        mem_wb := ⟨false, none, 0⟩,
        view := { s.view with vMEM := none } }
    | some instruction =>
      match instruction.op with
      | Op.LOAD =>
        let addr := s.ex_mem.alu_result
        let result :=
          if 0 ≤ addr ∧ addr < (s.memory.length : Int) then
            s.memory.getD addr.toNat 0
          else s.ex_mem.alu_result
        { s with
          view := { s.view with vMEM := some instruction },
          mem_wb := ⟨true, some instruction, result⟩ }
      | Op.STORE =>
        let addr := s.ex_mem.alu_result
        let memory :=
          if 0 ≤ addr ∧ addr < (s.memory.length : Int) then
            match instruction.rs with
            | some rs => s.memory.set addr.toNat (s.registers.getD rs 0)
            | none => s.memory.set addr.toNat s.ex_mem.rs2_value
          else s.memory
        { s with
          view := { s.view with vMEM := some instruction },
          memory := memory,
          mem_wb := ⟨true, some instruction, s.ex_mem.alu_result⟩ }
      | _ =>
        { s with
          view := { s.view with vMEM := some instruction },
          mem_wb := ⟨true, some instruction, s.ex_mem.alu_result⟩ }

/-- `writeback_stage`. -/
def writeback_stage (s : CPUState) : CPUState :=
  if ¬ s.mem_wb.valid then
    { s with view := { s.view with vWB := none } }
  else
    match s.mem_wb.instruction with
    | none =>
      { s with view := { s.view with vWB := none } }
    | some instruction =>
      let registers :=
        if (instruction.op = Op.ADD ∨ instruction.op = Op.SUB ∨
            instruction.op = Op.MUL ∨ instruction.op = Op.LOAD) then
          match instruction.rd with
          | some rd =>
            if rd ≠ 0 then s.registers.set rd s.mem_wb.result else s.registers
          | none => s.registers
        else s.registers
      { s with
        view := { s.view with vWB := some instruction },
        registers := registers,
        instructions_completed := s.instructions_completed + 1 }

/-- `update_pipeline_view`: rebuild the view from the latches; the `WB`
entry shows the value the dictionary's `MEM` entry had before the rebuild
(set by this cycle's `memory_stage`). -/
def update_pipeline_view (s : CPUState) : CPUState :=
  { s with
    view :=
      ⟨(if s.if_id.valid then s.if_id.instruction else none),
       (if s.id_ex.valid then s.id_ex.instruction else none),
       (if s.ex_mem.valid then s.ex_mem.instruction else none),
       (if s.mem_wb.valid then s.mem_wb.instruction else none),
       s.view.vMEM⟩ }

/-- `step`: one cycle, stages evaluated in reverse order, view refreshed,
then the `flush` flag cleared at end of the tick. -/
def step (s : CPUState) : CPUState :=
  let s := { s with cycles := s.cycles + 1 }
  let s := writeback_stage s
  let s := memory_stage s
  let s := execute_stage s
  let s := decode_stage s
  let s := fetch_stage s
  let s := update_pipeline_view s
  if s.flush then { s with flush := false } else s

/-- `n` iterations of `step`. -/
def stepN (n : Nat) (s : CPUState) : CPUState :=
  match n with
  | 0 => s
  | n + 1 => stepN n (step s)

/-- The negation of the `run` loop's guard
`any(stage is not None for stage in self.pipeline.values()) or
pc < len(self.instructions)`. -/
def halted (s : CPUState) : Bool :=
  s.view.vIF.isNone && s.view.vID.isNone && s.view.vEX.isNone &&
  s.view.vMEM.isNone && s.view.vWB.isNone &&
  decide (s.instructions.length ≤ s.pc)

/-- `run(cycles)`: step while the guard holds, for at most `fuel` cycles.
`run(None)` (no cycle limit) corresponds to iterating `step` while
`halted` is false, which the theorems express through `stepN`/`halted`. -/
def run (fuel : Nat) (s : CPUState) : CPUState :=
  match fuel with
  | 0 => s
  | fuel + 1 => if halted s then s else run fuel (step s)

/-- `PipelineCPU()` followed by `load_instructions(instructions)`: fresh
counters, empty latches, 32 zero registers, 1024 zero memory words. -/
def initState (instructions : List Instr) : CPUState :=
  { cycles := 0
    instructions_completed := 0
    stalls_inserted := 0
    branches_taken := 0
    if_id := ⟨false, none, 0⟩
    id_ex := ⟨false, none, 0, 0, 0⟩
    ex_mem := ⟨false, none, 0, 0⟩
    mem_wb := ⟨false, none, 0⟩
    view := View.empty
    pc := 0
    registers := List.replicate 32 0
    memory := List.replicate 1024 0
    instructions := instructions
    stall := false
    flush := false }

end CPUv2

namespace CPUv1

/-!
Embedding of `src/CPU/src/pipeline.py` (`class PipelineCPU`).  This variant
differs from `CPUv2` in exactly three places of the source:
`execute_stage` does not invalidate IF/ID on a taken branch (only the pc,
`flush` flag and counter change); `step` contains a post-EX flush block
that invalidates IF/ID and clears `flush` before ID and IF run; and
`fetch_stage` clears the view's IF entry when stalled.  The remaining
methods are textually identical in the two files.
-/

/-- `fetch_stage`.  When stalled, this variant additionally clears the
view's IF entry (`self.pipeline["IF"] = None`). -/
def fetch_stage (s : CPUState) : CPUState :=
  if s.stall then { s with view := { s.view with vIF := none } }
  else if s.pc < s.instructions.length then
    let instruction := s.instructions.getD s.pc nopInstr
    { s with
      if_id := ⟨true, some instruction, s.pc⟩,
      pc := s.pc + 1,
      view := { s.view with vIF := some instruction } }
  else
    { s with
      if_id := ⟨false, none, s.pc⟩,
      view := { s.view with vIF := none } }

/-- `decode_stage`: textually identical to `CPUv2.decode_stage`. -/
def decode_stage (s : CPUState) : CPUState :=
  if s.flush then
    { s with
      if_id := ⟨false, none, s.pc⟩,
      view := { s.view with vID := none } }
  else if ¬ s.if_id.valid then
    { s with
      id_ex := ⟨false, none, 0, 0, 0⟩,
      view := { s.view with vID := none } }
  else
    match s.if_id.instruction with
    | none =>
      { s with
        id_ex := ⟨false, none, 0, 0, 0⟩,
        view := { s.view with vID := none } }
    | some instruction =>
      let stall := HazardControl.detect_hazards s.if_id s.id_ex s.ex_mem
      if stall then
        { s with
          view := { s.view with vID := some instruction },
          stall := stall,
          stalls_inserted := s.stalls_inserted + 1,
          id_ex := ⟨false, none, 0, 0, 0⟩ }
      else
        let rs1_value : Int :=
          match instruction.rs1 with
          | some r => s.registers.getD r 0
          | none => 0
        let rs2_value : Int :=
          match instruction.rs2 with
          | some r => s.registers.getD r 0
          | none => 0
        let immediate : Int :=
          match instruction.immediate with
          | some i => i
          | none =>
            match instruction.addr with
            | some a => a
            | none => 0
        { s with
          view := { s.view with vID := some instruction },
          stall := stall,
          id_ex := ⟨true, some instruction, rs1_value, rs2_value, immediate⟩ }

/-- `execute_stage`.  On a taken `BEQ` or a `JUMP` this variant only
updates the pc, raises `flush` and counts the branch; IF/ID is left to the
flush block in `step`. -/
def execute_stage (s : CPUState) : CPUState :=
  if ¬ s.id_ex.valid then
    { s with
      ex_mem := ⟨false, none, 0, 0⟩,
      view := { s.view with vEX := none } }
  else
    match s.id_ex.instruction with
    | none =>
      { s with
        ex_mem := ⟨false, none, 0, 0⟩,
        view := { s.view with vEX := none } }
    | some instruction =>
      let fwd := HazardControl.apply_forwarding s.id_ex s.ex_mem s.mem_wb
      let rs1_value := fwd.1
      let rs2_value := fwd.2
      match instruction.op with
      | Op.ADD =>
        { s with
          view := { s.view with vEX := some instruction },
          ex_mem := ⟨true, some instruction, rs1_value + rs2_value, rs2_value⟩ }
      | Op.SUB =>
        { s with
          view := { s.view with vEX := some instruction },
          ex_mem := ⟨true, some instruction, rs1_value - rs2_value, rs2_value⟩ }
      | Op.MUL =>
        { s with
          view := { s.view with vEX := some instruction },
          ex_mem := ⟨true, some instruction, rs1_value * rs2_value, rs2_value⟩ }
      | Op.LOAD =>
        { s with
          view := { s.view with vEX := some instruction },
          ex_mem := ⟨true, some instruction, s.id_ex.immediate, rs2_value⟩ }
      | Op.STORE =>
        { s with
          view := { s.view with vEX := some instruction },
          ex_mem := ⟨true, some instruction, s.id_ex.immediate, rs2_value⟩ }
      | Op.BEQ =>
        if rs1_value = rs2_value then
          { s with
            pc := instruction.target.getD 0,
            flush := true,
            branches_taken := s.branches_taken + 1,
            view := { s.view with vEX := some instruction },
            ex_mem := ⟨true, some instruction, 1, rs2_value⟩ }
        else
          { s with
            view := { s.view with vEX := some instruction },
            ex_mem := ⟨true, some instruction, 0, rs2_value⟩ }
      | Op.JUMP =>
        { s with
          pc := instruction.target.getD 0,
          flush := true,
          branches_taken := s.branches_taken + 1,
          view := { s.view with vEX := some instruction },
          ex_mem := ⟨true, some instruction, 0, rs2_value⟩ }
      | Op.NOP =>
        { s with
          view := { s.view with vEX := some instruction },
          ex_mem := ⟨true, some instruction, 0, rs2_value⟩ }

/-- `memory_stage`: textually identical to `CPUv2.memory_stage`. -/
def memory_stage (s : CPUState) : CPUState :=
  if ¬ s.ex_mem.valid then
    { s with
      mem_wb := ⟨false, none, 0⟩,
      view := { s.view with vMEM := none } }
  else
    match s.ex_mem.instruction with
    | none =>
      { s with
        mem_wb := ⟨false, none, 0⟩,
        view := { s.view with vMEM := none } }
    | some instruction =>
      match instruction.op with
      | Op.LOAD =>
        let addr := s.ex_mem.alu_result
        let result :=
          if 0 ≤ addr ∧ addr < (s.memory.length : Int) then
            s.memory.getD addr.toNat 0
          else s.ex_mem.alu_result
        { s with
          view := { s.view with vMEM := some instruction },
          mem_wb := ⟨true, some instruction, result⟩ }
      | Op.STORE =>
        let addr := s.ex_mem.alu_result
        let memory :=
          if 0 ≤ addr ∧ addr < (s.memory.length : Int) then
            match instruction.rs with
            | some rs => s.memory.set addr.toNat (s.registers.getD rs 0)
            | none => s.memory.set addr.toNat s.ex_mem.rs2_value
          else s.memory
        { s with
          view := { s.view with vMEM := some instruction },
          memory := memory,
          mem_wb := ⟨true, some instruction, s.ex_mem.alu_result⟩ }
      | _ =>
        { s with
          view := { s.view with vMEM := some instruction },
          mem_wb := ⟨true, some instruction, s.ex_mem.alu_result⟩ }

/-- `writeback_stage`: textually identical to `CPUv2.writeback_stage`. -/
def writeback_stage (s : CPUState) : CPUState :=
  if ¬ s.mem_wb.valid then
    { s with view := { s.view with vWB := none } }
  else
    match s.mem_wb.instruction with
    | none =>
      { s with view := { s.view with vWB := none } }
    | some instruction =>
      let registers :=
        if (instruction.op = Op.ADD ∨ instruction.op = Op.SUB ∨
            instruction.op = Op.MUL ∨ instruction.op = Op.LOAD) then
          match instruction.rd with
          | some rd =>
            if rd ≠ 0 then s.registers.set rd s.mem_wb.result else s.registers
          | none => s.registers
        else s.registers
      { s with
        view := { s.view with vWB := some instruction },
        registers := registers,
        instructions_completed := s.instructions_completed + 1 }

/-- `update_pipeline_view`: identical to `CPUv2.update_pipeline_view`. -/
def update_pipeline_view (s : CPUState) : CPUState :=
  { s with
    view :=
      ⟨(if s.if_id.valid then s.if_id.instruction else none),
       (if s.id_ex.valid then s.id_ex.instruction else none),
       (if s.ex_mem.valid then s.ex_mem.instruction else none),
       (if s.mem_wb.valid then s.mem_wb.instruction else none),
       s.view.vMEM⟩ }

/-- `step`: one cycle.  After EX, if `flush` is set, IF/ID and the view's
IF entry are cleared and the flag is reset before ID and IF run. -/
def step (s : CPUState) : CPUState :=
  let s := { s with cycles := s.cycles + 1 }
  let s := writeback_stage s
  let s := memory_stage s
  let s := execute_stage s
  let s :=
    if s.flush then
      { s with
        if_id := ⟨false, none, s.pc⟩,
        view := { s.view with vIF := none },
        flush := false }
    else s
  let s := decode_stage s
  let s := fetch_stage s
  update_pipeline_view s

/-- `n` iterations of `step`. -/
def stepN (n : Nat) (s : CPUState) : CPUState :=
  match n with
  | 0 => s
  | n + 1 => stepN n (step s)

/-- The negation of the `run` loop's guard (same text as in `CPUv2`). -/
def halted (s : CPUState) : Bool :=
  s.view.vIF.isNone && s.view.vID.isNone && s.view.vEX.isNone &&
  s.view.vMEM.isNone && s.view.vWB.isNone &&
  decide (s.instructions.length ≤ s.pc)

/-- `run(cycles)`: step while the guard holds, for at most `fuel` cycles. -/
def run (fuel : Nat) (s : CPUState) : CPUState :=
  match fuel with
  | 0 => s
  | fuel + 1 => if halted s then s else run fuel (step s)

/-- `PipelineCPU()` followed by `load_instructions(instructions)`. -/
def initState (instructions : List Instr) : CPUState :=
  { cycles := 0
    instructions_completed := 0
    stalls_inserted := 0
    branches_taken := 0
    if_id := ⟨false, none, 0⟩
    id_ex := ⟨false, none, 0, 0, 0⟩
    ex_mem := ⟨false, none, 0, 0⟩
    mem_wb := ⟨false, none, 0⟩
    view := View.empty
    pc := 0
    registers := List.replicate 32 0
    memory := List.replicate 1024 0
    instructions := instructions
    stall := false
    flush := false }

end CPUv1
namespace CPUv2

/-! Frame lemmas: each stage leaves the fields it does not write unchanged. -/

@[simp] theorem wb_cycles (s : CPUState) :
    (writeback_stage s).cycles = s.cycles := by
  unfold writeback_stage; dsimp only; repeat' split
  all_goals rfl

@[simp] theorem wb_stalls_inserted (s : CPUState) :
    (writeback_stage s).stalls_inserted = s.stalls_inserted := by
  unfold writeback_stage; dsimp only; repeat' split
  all_goals rfl

@[simp] theorem wb_branches_taken (s : CPUState) :
    (writeback_stage s).branches_taken = s.branches_taken := by
  unfold writeback_stage; dsimp only; repeat' split
  all_goals rfl

@[simp] theorem wb_if_id (s : CPUState) :
    (writeback_stage s).if_id = s.if_id := by
  unfold writeback_stage; dsimp only; repeat' split
  all_goals rfl

@[simp] theorem wb_id_ex (s : CPUState) :
    (writeback_stage s).id_ex = s.id_ex := by
  unfold writeback_stage; dsimp only; repeat' split
  all_goals rfl

@[simp] theorem wb_ex_mem (s : CPUState) :
    (writeback_stage s).ex_mem = s.ex_mem := by
  unfold writeback_stage; dsimp only; repeat' split
  all_goals rfl

@[simp] theorem wb_mem_wb (s : CPUState) :
    (writeback_stage s).mem_wb = s.mem_wb := by
  unfold writeback_stage; dsimp only; repeat' split
  all_goals rfl

@[simp] theorem wb_pc (s : CPUState) :
    (writeback_stage s).pc = s.pc := by
  unfold writeback_stage; dsimp only; repeat' split
  all_goals rfl

@[simp] theorem wb_memory (s : CPUState) :
    (writeback_stage s).memory = s.memory := by
  unfold writeback_stage; dsimp only; repeat' split
  all_goals rfl

@[simp] theorem wb_instructions (s : CPUState) :
    (writeback_stage s).instructions = s.instructions := by
  unfold writeback_stage; dsimp only; repeat' split
  all_goals rfl

@[simp] theorem wb_stall (s : CPUState) :
    (writeback_stage s).stall = s.stall := by
  unfold writeback_stage; dsimp only; repeat' split
  all_goals rfl

@[simp] theorem wb_flush (s : CPUState) :
    (writeback_stage s).flush = s.flush := by
  unfold writeback_stage; dsimp only; repeat' split
  all_goals rfl

@[simp] theorem mem_cycles (s : CPUState) :
    (memory_stage s).cycles = s.cycles := by
  unfold memory_stage; dsimp only; repeat' split
  all_goals rfl

@[simp] theorem mem_instructions_completed (s : CPUState) :
    (memory_stage s).instructions_completed = s.instructions_completed := by
  unfold memory_stage; dsimp only; repeat' split
  all_goals rfl

@[simp] theorem mem_stalls_inserted (s : CPUState) :
    (memory_stage s).stalls_inserted = s.stalls_inserted := by
  unfold memory_stage; dsimp only; repeat' split
  all_goals rfl

@[simp] theorem mem_branches_taken (s : CPUState) :
    (memory_stage s).branches_taken = s.branches_taken := by
  unfold memory_stage; dsimp only; repeat' split
  all_goals rfl

@[simp] theorem mem_if_id (s : CPUState) :
    (memory_stage s).if_id = s.if_id := by
  unfold memory_stage; dsimp only; repeat' split
  all_goals rfl

@[simp] theorem mem_id_ex (s : CPUState) :
    (memory_stage s).id_ex = s.id_ex := by
  unfold memory_stage; dsimp only; repeat' split
  all_goals rfl

@[simp] theorem mem_ex_mem (s : CPUState) :
    (memory_stage s).ex_mem = s.ex_mem := by
  unfold memory_stage; dsimp only; repeat' split
  all_goals rfl

@[simp] theorem mem_pc (s : CPUState) :
    (memory_stage s).pc = s.pc := by
  unfold memory_stage; dsimp only; repeat' split
  all_goals rfl

@[simp] theorem mem_registers (s : CPUState) :
    (memory_stage s).registers = s.registers := by
  unfold memory_stage; dsimp only; repeat' split
  all_goals rfl

@[simp] theorem mem_instructions (s : CPUState) :
    (memory_stage s).instructions = s.instructions := by
  unfold memory_stage; dsimp only; repeat' split
  all_goals rfl

@[simp] theorem mem_stall (s : CPUState) :
    (memory_stage s).stall = s.stall := by
  unfold memory_stage; dsimp only; repeat' split
  all_goals rfl

@[simp] theorem mem_flush (s : CPUState) :
    (memory_stage s).flush = s.flush := by
  unfold memory_stage; dsimp only; repeat' split
  all_goals rfl

@[simp] theorem ex_cycles (s : CPUState) :
    (execute_stage s).cycles = s.cycles := by
  unfold execute_stage; dsimp only; repeat' split
  all_goals rfl

@[simp] theorem ex_instructions_completed (s : CPUState) :
    (execute_stage s).instructions_completed = s.instructions_completed := by
  unfold execute_stage; dsimp only; repeat' split
  all_goals rfl

@[simp] theorem ex_stalls_inserted (s : CPUState) :
    (execute_stage s).stalls_inserted = s.stalls_inserted := by
  unfold execute_stage; dsimp only; repeat' split
  all_goals rfl

@[simp] theorem ex_id_ex (s : CPUState) :
    (execute_stage s).id_ex = s.id_ex := by
  unfold execute_stage; dsimp only; repeat' split
  all_goals rfl

@[simp] theorem ex_mem_wb (s : CPUState) :
    (execute_stage s).mem_wb = s.mem_wb := by
  unfold execute_stage; dsimp only; repeat' split
  all_goals rfl

@[simp] theorem ex_registers (s : CPUState) :
    (execute_stage s).registers = s.registers := by
  unfold execute_stage; dsimp only; repeat' split
  all_goals rfl

@[simp] theorem ex_memory (s : CPUState) :
    (execute_stage s).memory = s.memory := by
  unfold execute_stage; dsimp only; repeat' split
  all_goals rfl

@[simp] theorem ex_instructions (s : CPUState) :
    (execute_stage s).instructions = s.instructions := by
  unfold execute_stage; dsimp only; repeat' split
  all_goals rfl

@[simp] theorem ex_stall (s : CPUState) :
    (execute_stage s).stall = s.stall := by
  unfold execute_stage; dsimp only; repeat' split
  all_goals rfl

@[simp] theorem dec_cycles (s : CPUState) :
    (decode_stage s).cycles = s.cycles := by
  unfold decode_stage; dsimp only; repeat' split
  all_goals rfl

@[simp] theorem dec_instructions_completed (s : CPUState) :
    (decode_stage s).instructions_completed = s.instructions_completed := by
  unfold decode_stage; dsimp only; repeat' split
  all_goals rfl

@[simp] theorem dec_branches_taken (s : CPUState) :
    (decode_stage s).branches_taken = s.branches_taken := by
  unfold decode_stage; dsimp only; repeat' split
  all_goals rfl

@[simp] theorem dec_ex_mem (s : CPUState) :
    (decode_stage s).ex_mem = s.ex_mem := by
  unfold decode_stage; dsimp only; repeat' split
  all_goals rfl

@[simp] theorem dec_mem_wb (s : CPUState) :
    (decode_stage s).mem_wb = s.mem_wb := by
  unfold decode_stage; dsimp only; repeat' split
  all_goals rfl

@[simp] theorem dec_pc (s : CPUState) :
    (decode_stage s).pc = s.pc := by
  unfold decode_stage; dsimp only; repeat' split
  all_goals rfl

@[simp] theorem dec_registers (s : CPUState) :
    (decode_stage s).registers = s.registers := by
  unfold decode_stage; dsimp only; repeat' split
  all_goals rfl

@[simp] theorem dec_memory (s : CPUState) :
    (decode_stage s).memory = s.memory := by
  unfold decode_stage; dsimp only; repeat' split
  all_goals rfl

@[simp] theorem dec_instructions (s : CPUState) :
    (decode_stage s).instructions = s.instructions := by
  unfold decode_stage; dsimp only; repeat' split
  all_goals rfl

@[simp] theorem dec_flush (s : CPUState) :
    (decode_stage s).flush = s.flush := by
  unfold decode_stage; dsimp only; repeat' split
  all_goals rfl

@[simp] theorem fetch_cycles (s : CPUState) :
    (fetch_stage s).cycles = s.cycles := by
  unfold fetch_stage; dsimp only; repeat' split
  all_goals rfl

@[simp] theorem fetch_instructions_completed (s : CPUState) :
    (fetch_stage s).instructions_completed = s.instructions_completed := by
  unfold fetch_stage; dsimp only; repeat' split
  all_goals rfl

@[simp] theorem fetch_stalls_inserted (s : CPUState) :
    (fetch_stage s).stalls_inserted = s.stalls_inserted := by
  unfold fetch_stage; dsimp only; repeat' split
  all_goals rfl

@[simp] theorem fetch_branches_taken (s : CPUState) :
    (fetch_stage s).branches_taken = s.branches_taken := by
  unfold fetch_stage; dsimp only; repeat' split
  all_goals rfl

@[simp] theorem fetch_id_ex (s : CPUState) :
    (fetch_stage s).id_ex = s.id_ex := by
  unfold fetch_stage; dsimp only; repeat' split
  all_goals rfl

@[simp] theorem fetch_ex_mem (s : CPUState) :
    (fetch_stage s).ex_mem = s.ex_mem := by
  unfold fetch_stage; dsimp only; repeat' split
  all_goals rfl

@[simp] theorem fetch_mem_wb (s : CPUState) :
    (fetch_stage s).mem_wb = s.mem_wb := by
  unfold fetch_stage; dsimp only; repeat' split
  all_goals rfl

@[simp] theorem fetch_registers (s : CPUState) :
    (fetch_stage s).registers = s.registers := by
  unfold fetch_stage; dsimp only; repeat' split
  all_goals rfl

@[simp] theorem fetch_memory (s : CPUState) :
    (fetch_stage s).memory = s.memory := by
  unfold fetch_stage; dsimp only; repeat' split
  all_goals rfl

@[simp] theorem fetch_instructions (s : CPUState) :
    (fetch_stage s).instructions = s.instructions := by
  unfold fetch_stage; dsimp only; repeat' split
  all_goals rfl

@[simp] theorem fetch_stall (s : CPUState) :
    (fetch_stage s).stall = s.stall := by
  unfold fetch_stage; dsimp only; repeat' split
  all_goals rfl

@[simp] theorem fetch_flush (s : CPUState) :
    (fetch_stage s).flush = s.flush := by
  unfold fetch_stage; dsimp only; repeat' split
  all_goals rfl

@[simp] theorem upd_cycles (s : CPUState) :
    (update_pipeline_view s).cycles = s.cycles := rfl

@[simp] theorem upd_instructions_completed (s : CPUState) :
    (update_pipeline_view s).instructions_completed = s.instructions_completed := rfl

@[simp] theorem upd_stalls_inserted (s : CPUState) :
    (update_pipeline_view s).stalls_inserted = s.stalls_inserted := rfl

@[simp] theorem upd_branches_taken (s : CPUState) :
    (update_pipeline_view s).branches_taken = s.branches_taken := rfl

@[simp] theorem upd_if_id (s : CPUState) :
    (update_pipeline_view s).if_id = s.if_id := rfl

@[simp] theorem upd_id_ex (s : CPUState) :
    (update_pipeline_view s).id_ex = s.id_ex := rfl

@[simp] theorem upd_ex_mem (s : CPUState) :
    (update_pipeline_view s).ex_mem = s.ex_mem := rfl

@[simp] theorem upd_mem_wb (s : CPUState) :
    (update_pipeline_view s).mem_wb = s.mem_wb := rfl

@[simp] theorem upd_pc (s : CPUState) :
    (update_pipeline_view s).pc = s.pc := rfl

@[simp] theorem upd_registers (s : CPUState) :
    (update_pipeline_view s).registers = s.registers := rfl

@[simp] theorem upd_memory (s : CPUState) :
    (update_pipeline_view s).memory = s.memory := rfl

@[simp] theorem upd_instructions (s : CPUState) :
    (update_pipeline_view s).instructions = s.instructions := rfl

@[simp] theorem upd_stall (s : CPUState) :
    (update_pipeline_view s).stall = s.stall := rfl

@[simp] theorem upd_flush (s : CPUState) :
    (update_pipeline_view s).flush = s.flush := rfl

end CPUv2

namespace CPUv1

/-! Frame lemmas: each stage leaves the fields it does not write unchanged. -/

@[simp] theorem wb_cycles1 (s : CPUState) :
    (writeback_stage s).cycles = s.cycles := by
  unfold writeback_stage; dsimp only; repeat' split
  all_goals rfl

@[simp] theorem wb_stalls_inserted1 (s : CPUState) :
    (writeback_stage s).stalls_inserted = s.stalls_inserted := by
  unfold writeback_stage; dsimp only; repeat' split
  all_goals rfl

@[simp] theorem wb_branches_taken1 (s : CPUState) :
    (writeback_stage s).branches_taken = s.branches_taken := by
  unfold writeback_stage; dsimp only; repeat' split
  all_goals rfl

@[simp] theorem wb_if_id1 (s : CPUState) :
    (writeback_stage s).if_id = s.if_id := by
  unfold writeback_stage; dsimp only; repeat' split
  all_goals rfl

@[simp] theorem wb_id_ex1 (s : CPUState) :
    (writeback_stage s).id_ex = s.id_ex := by
  unfold writeback_stage; dsimp only; repeat' split
  all_goals rfl

@[simp] theorem wb_ex_mem1 (s : CPUState) :
    (writeback_stage s).ex_mem = s.ex_mem := by
  unfold writeback_stage; dsimp only; repeat' split
  all_goals rfl

@[simp] theorem wb_mem_wb1 (s : CPUState) :
    (writeback_stage s).mem_wb = s.mem_wb := by
  unfold writeback_stage; dsimp only; repeat' split
  all_goals rfl

@[simp] theorem wb_pc1 (s : CPUState) :
    (writeback_stage s).pc = s.pc := by
  unfold writeback_stage; dsimp only; repeat' split
  all_goals rfl

@[simp] theorem wb_memory1 (s : CPUState) :
    (writeback_stage s).memory = s.memory := by
  unfold writeback_stage; dsimp only; repeat' split
  all_goals rfl

@[simp] theorem wb_instructions1 (s : CPUState) :
    (writeback_stage s).instructions = s.instructions := by
  unfold writeback_stage; dsimp only; repeat' split
  all_goals rfl

@[simp] theorem wb_stall1 (s : CPUState) :
    (writeback_stage s).stall = s.stall := by
  unfold writeback_stage; dsimp only; repeat' split
  all_goals rfl

@[simp] theorem wb_flush1 (s : CPUState) :
    (writeback_stage s).flush = s.flush := by
  unfold writeback_stage; dsimp only; repeat' split
  all_goals rfl

@[simp] theorem mem_cycles1 (s : CPUState) :
    (memory_stage s).cycles = s.cycles := by
  unfold memory_stage; dsimp only; repeat' split
  all_goals rfl

@[simp] theorem mem_instructions_completed1 (s : CPUState) :
    (memory_stage s).instructions_completed = s.instructions_completed := by
  unfold memory_stage; dsimp only; repeat' split
  all_goals rfl

@[simp] theorem mem_stalls_inserted1 (s : CPUState) :
    (memory_stage s).stalls_inserted = s.stalls_inserted := by
  unfold memory_stage; dsimp only; repeat' split
  all_goals rfl

@[simp] theorem mem_branches_taken1 (s : CPUState) :
    (memory_stage s).branches_taken = s.branches_taken := by
  unfold memory_stage; dsimp only; repeat' split
  all_goals rfl

@[simp] theorem mem_if_id1 (s : CPUState) :
    (memory_stage s).if_id = s.if_id := by
  unfold memory_stage; dsimp only; repeat' split
  all_goals rfl

@[simp] theorem mem_id_ex1 (s : CPUState) :
    (memory_stage s).id_ex = s.id_ex := by
  unfold memory_stage; dsimp only; repeat' split
  all_goals rfl

@[simp] theorem mem_ex_mem1 (s : CPUState) :
    (memory_stage s).ex_mem = s.ex_mem := by
  unfold memory_stage; dsimp only; repeat' split
  all_goals rfl

@[simp] theorem mem_pc1 (s : CPUState) :
    (memory_stage s).pc = s.pc := by
  unfold memory_stage; dsimp only; repeat' split
  all_goals rfl

@[simp] theorem mem_registers1 (s : CPUState) :
    (memory_stage s).registers = s.registers := by
  unfold memory_stage; dsimp only; repeat' split
  all_goals rfl

@[simp] theorem mem_instructions1 (s : CPUState) :
    (memory_stage s).instructions = s.instructions := by
  unfold memory_stage; dsimp only; repeat' split
  all_goals rfl

@[simp] theorem mem_stall1 (s : CPUState) :
    (memory_stage s).stall = s.stall := by
  unfold memory_stage; dsimp only; repeat' split
  all_goals rfl

@[simp] theorem mem_flush1 (s : CPUState) :
    (memory_stage s).flush = s.flush := by
  unfold memory_stage; dsimp only; repeat' split
  all_goals rfl

@[simp] theorem ex_cycles1 (s : CPUState) :
    (execute_stage s).cycles = s.cycles := by
  unfold execute_stage; dsimp only; repeat' split
  all_goals rfl

@[simp] theorem ex_instructions_completed1 (s : CPUState) :
    (execute_stage s).instructions_completed = s.instructions_completed := by
  unfold execute_stage; dsimp only; repeat' split
  all_goals rfl

@[simp] theorem ex_stalls_inserted1 (s : CPUState) :
    (execute_stage s).stalls_inserted = s.stalls_inserted := by
  unfold execute_stage; dsimp only; repeat' split
  all_goals rfl

@[simp] theorem ex_if_id (s : CPUState) :
    (execute_stage s).if_id = s.if_id := by
  unfold execute_stage; dsimp only; repeat' split
  all_goals rfl

@[simp] theorem ex_id_ex1 (s : CPUState) :
    (execute_stage s).id_ex = s.id_ex := by
  unfold execute_stage; dsimp only; repeat' split
  all_goals rfl

@[simp] theorem ex_mem_wb1 (s : CPUState) :
    (execute_stage s).mem_wb = s.mem_wb := by
  unfold execute_stage; dsimp only; repeat' split
  all_goals rfl

@[simp] theorem ex_registers1 (s : CPUState) :
    (execute_stage s).registers = s.registers := by
  unfold execute_stage; dsimp only; repeat' split
  all_goals rfl

@[simp] theorem ex_memory1 (s : CPUState) :
    (execute_stage s).memory = s.memory := by
  unfold execute_stage; dsimp only; repeat' split
  all_goals rfl

@[simp] theorem ex_instructions1 (s : CPUState) :
    (execute_stage s).instructions = s.instructions := by
  unfold execute_stage; dsimp only; repeat' split
  all_goals rfl

@[simp] theorem ex_stall1 (s : CPUState) :
    (execute_stage s).stall = s.stall := by
  unfold execute_stage; dsimp only; repeat' split
  all_goals rfl

@[simp] theorem dec_cycles1 (s : CPUState) :
    (decode_stage s).cycles = s.cycles := by
  unfold decode_stage; dsimp only; repeat' split
  all_goals rfl

@[simp] theorem dec_instructions_completed1 (s : CPUState) :
    (decode_stage s).instructions_completed = s.instructions_completed := by
  unfold decode_stage; dsimp only; repeat' split
  all_goals rfl

@[simp] theorem dec_branches_taken1 (s : CPUState) :
    (decode_stage s).branches_taken = s.branches_taken := by
  unfold decode_stage; dsimp only; repeat' split
  all_goals rfl

@[simp] theorem dec_ex_mem1 (s : CPUState) :
    (decode_stage s).ex_mem = s.ex_mem := by
  unfold decode_stage; dsimp only; repeat' split
  all_goals rfl

@[simp] theorem dec_mem_wb1 (s : CPUState) :
    (decode_stage s).mem_wb = s.mem_wb := by
  unfold decode_stage; dsimp only; repeat' split
  all_goals rfl

@[simp] theorem dec_pc1 (s : CPUState) :
    (decode_stage s).pc = s.pc := by
  unfold decode_stage; dsimp only; repeat' split
  all_goals rfl

@[simp] theorem dec_registers1 (s : CPUState) :
    (decode_stage s).registers = s.registers := by
  unfold decode_stage; dsimp only; repeat' split
  all_goals rfl

@[simp] theorem dec_memory1 (s : CPUState) :
    (decode_stage s).memory = s.memory := by
  unfold decode_stage; dsimp only; repeat' split
  all_goals rfl

@[simp] theorem dec_instructions1 (s : CPUState) :
    (decode_stage s).instructions = s.instructions := by
  unfold decode_stage; dsimp only; repeat' split
  all_goals rfl

@[simp] theorem dec_flush1 (s : CPUState) :
    (decode_stage s).flush = s.flush := by
  unfold decode_stage; dsimp only; repeat' split
  all_goals rfl

@[simp] theorem fetch_cycles1 (s : CPUState) :
    (fetch_stage s).cycles = s.cycles := by
  unfold fetch_stage; dsimp only; repeat' split
  all_goals rfl

@[simp] theorem fetch_instructions_completed1 (s : CPUState) :
    (fetch_stage s).instructions_completed = s.instructions_completed := by
  unfold fetch_stage; dsimp only; repeat' split
  all_goals rfl

@[simp] theorem fetch_stalls_inserted1 (s : CPUState) :
    (fetch_stage s).stalls_inserted = s.stalls_inserted := by
  unfold fetch_stage; dsimp only; repeat' split
  all_goals rfl

@[simp] theorem fetch_branches_taken1 (s : CPUState) :
    (fetch_stage s).branches_taken = s.branches_taken := by
  unfold fetch_stage; dsimp only; repeat' split
  all_goals rfl

@[simp] theorem fetch_id_ex1 (s : CPUState) :
    (fetch_stage s).id_ex = s.id_ex := by
  unfold fetch_stage; dsimp only; repeat' split
  all_goals rfl

@[simp] theorem fetch_ex_mem1 (s : CPUState) :
    (fetch_stage s).ex_mem = s.ex_mem := by
  unfold fetch_stage; dsimp only; repeat' split
  all_goals rfl

@[simp] theorem fetch_mem_wb1 (s : CPUState) :
    (fetch_stage s).mem_wb = s.mem_wb := by
  unfold fetch_stage; dsimp only; repeat' split
  all_goals rfl

@[simp] theorem fetch_registers1 (s : CPUState) :
    (fetch_stage s).registers = s.registers := by
  unfold fetch_stage; dsimp only; repeat' split
  all_goals rfl

@[simp] theorem fetch_memory1 (s : CPUState) :
    (fetch_stage s).memory = s.memory := by
  unfold fetch_stage; dsimp only; repeat' split
  all_goals rfl

@[simp] theorem fetch_instructions1 (s : CPUState) :
    (fetch_stage s).instructions = s.instructions := by
  unfold fetch_stage; dsimp only; repeat' split
  all_goals rfl

@[simp] theorem fetch_stall1 (s : CPUState) :
    (fetch_stage s).stall = s.stall := by
  unfold fetch_stage; dsimp only; repeat' split
  all_goals rfl

@[simp] theorem fetch_flush1 (s : CPUState) :
    (fetch_stage s).flush = s.flush := by
  unfold fetch_stage; dsimp only; repeat' split
  all_goals rfl

@[simp] theorem upd_cycles1 (s : CPUState) :
    (update_pipeline_view s).cycles = s.cycles := rfl

@[simp] theorem upd_instructions_completed1 (s : CPUState) :
    (update_pipeline_view s).instructions_completed = s.instructions_completed := rfl

@[simp] theorem upd_stalls_inserted1 (s : CPUState) :
    (update_pipeline_view s).stalls_inserted = s.stalls_inserted := rfl

@[simp] theorem upd_branches_taken1 (s : CPUState) :
    (update_pipeline_view s).branches_taken = s.branches_taken := rfl

@[simp] theorem upd_if_id1 (s : CPUState) :
    (update_pipeline_view s).if_id = s.if_id := rfl

@[simp] theorem upd_id_ex1 (s : CPUState) :
    (update_pipeline_view s).id_ex = s.id_ex := rfl

@[simp] theorem upd_ex_mem1 (s : CPUState) :
    (update_pipeline_view s).ex_mem = s.ex_mem := rfl

@[simp] theorem upd_mem_wb1 (s : CPUState) :
    (update_pipeline_view s).mem_wb = s.mem_wb := rfl

@[simp] theorem upd_pc1 (s : CPUState) :
    (update_pipeline_view s).pc = s.pc := rfl

@[simp] theorem upd_registers1 (s : CPUState) :
    (update_pipeline_view s).registers = s.registers := rfl

@[simp] theorem upd_memory1 (s : CPUState) :
    (update_pipeline_view s).memory = s.memory := rfl

@[simp] theorem upd_instructions1 (s : CPUState) :
    (update_pipeline_view s).instructions = s.instructions := rfl

@[simp] theorem upd_stall1 (s : CPUState) :
    (update_pipeline_view s).stall = s.stall := rfl

@[simp] theorem upd_flush1 (s : CPUState) :
    (update_pipeline_view s).flush = s.flush := rfl

end CPUv1


namespace CPUv2

@[simp] theorem step_instructions (s : CPUState) :
    (step s).instructions = s.instructions := by
  unfold step; dsimp only; split <;> simp

@[simp] theorem step_cycles (s : CPUState) :
    (step s).cycles = s.cycles + 1 := by
  unfold step; dsimp only; split <;> simp

theorem step_registers (s : CPUState) :
    (step s).registers = (writeback_stage { s with cycles := s.cycles + 1 }).registers := by
  unfold step; dsimp only; split <;> simp

end CPUv2

namespace CPUv1

@[simp] theorem step_instructions1 (s : CPUState) :
    (step s).instructions = s.instructions := by
  unfold step; dsimp only; split <;> simp

@[simp] theorem step_cycles1 (s : CPUState) :
    (step s).cycles = s.cycles + 1 := by
  unfold step; dsimp only; split <;> simp

theorem step_registers1 (s : CPUState) :
    (step s).registers = (writeback_stage { s with cycles := s.cycles + 1 }).registers := by
  unfold step; dsimp only; split <;> simp

end CPUv1

/-- Setting a nonzero position of a list does not change the element at
position 0. -/
theorem getD_set_zero (l : List Int) (n : Nat) (a : Int) (h : n ≠ 0) :
    (l.set n a).getD 0 0 = l.getD 0 0 := by
  cases l with
  | nil => rfl
  | cons x xs =>
    cases n with
    | zero => exact absurd rfl h
    | succ m => simp [List.set]

namespace CPUv2

/-- The only register write in a cycle is WB's, and it is guarded by
`rd != 0`; hence register 0 is preserved by `writeback_stage`. -/
theorem wb_register_zero (s : CPUState) :
    (writeback_stage s).registers.getD 0 0 = s.registers.getD 0 0 := by
  unfold writeback_stage; dsimp only; repeat' split
  all_goals first
  | rfl
  | (exact getD_set_zero _ _ _ (by assumption))

/-- Register 0 is preserved by a whole cycle. -/
theorem step_register_zero (s : CPUState) :
    (step s).registers.getD 0 0 = s.registers.getD 0 0 := by
  rw [step_registers]
  exact wb_register_zero _

end CPUv2

namespace CPUv1

theorem wb_register_zero1 (s : CPUState) :
    (writeback_stage s).registers.getD 0 0 = s.registers.getD 0 0 := by
  unfold writeback_stage; dsimp only; repeat' split
  all_goals first
  | rfl
  | (exact getD_set_zero _ _ _ (by assumption))

theorem step_register_zero1 (s : CPUState) :
    (step s).registers.getD 0 0 = s.registers.getD 0 0 := by
  rw [step_registers1]
  exact wb_register_zero1 _

end CPUv1

/-- Claim C4: starting from any state whose register 0 holds 0, after any
number of cycles register 0 still holds 0, in both pipeline variants: the
write-back guard `rd != 0` is the only register write and discards writes
to register 0. -/
theorem claim_C4 (s : CPUState) (n : Nat) (h : s.registers.getD 0 0 = 0) :
    (CPUv1.stepN n s).registers.getD 0 0 = 0 ∧
    (CPUv2.stepN n s).registers.getD 0 0 = 0 := by
  induction n generalizing s with
  | zero => exact ⟨h, h⟩
  | succ m ih =>
    refine ⟨?_, ?_⟩
    · exact ((ih (CPUv1.step s) (by rw [CPUv1.step_register_zero1]; exact h)).1)
    · exact ((ih (CPUv2.step s) (by rw [CPUv2.step_register_zero]; exact h)).2)

/-- Witness for C4 at a concrete program and cycle count. -/
theorem claim_C4_witness :
    (CPUv1.stepN 5 (CPUv1.initState [nopInstr])).registers.getD 0 0 = 0 ∧
    (CPUv2.stepN 5 (CPUv1.initState [nopInstr])).registers.getD 0 0 = 0 :=
  claim_C4 (CPUv1.initState [nopInstr]) 5 (by decide)

/-- Claim C5: the stall query returns true exactly when IF/ID is valid,
ID/EX is valid and holds a LOAD whose destination register is nonzero and
equals a source register declared on the IF/ID instruction; missing source
fields count as no source.  In particular it returns false whenever IF/ID
is invalid. -/
theorem claim_C5 (if_id : IFID) (id_ex : IDEX) (ex_mem : EXMEM) :
    HazardControl.detect_hazards if_id id_ex ex_mem = true ↔
    (if_id.valid = true ∧ id_ex.valid = true ∧
     ∃ i j r, if_id.instruction = some i ∧ id_ex.instruction = some j ∧
       j.op = Op.LOAD ∧ j.rd = some r ∧ r ≠ 0 ∧
       (i.rs1 = some r ∨ i.rs2 = some r)) := by
  obtain ⟨v, oi, fpc⟩ := if_id
  obtain ⟨w, oj, a, b, c⟩ := id_ex
  cases v <;> cases oi <;> cases w <;> cases oj <;>
    simp only [HazardControl.detect_hazards, HazardControl.srcOr] <;>
    simp
  case some.true.some i j =>
    rcases hop : j.op <;> rcases hrd : j.rd with _ | r <;>
      rcases h1 : i.rs1 with _ | r1 <;> rcases h2 : i.rs2 with _ | r2 <;>
      simp_all <;> omega

/-- Witness for C5: a load-use hazard configuration on which the stall
query fires. -/
theorem claim_C5_witness :
    HazardControl.detect_hazards
      ⟨true, some { op := Op.ADD, rd := some 1, rs1 := some 5, rs2 := some 6 }, 0⟩
      ⟨true, some { op := Op.LOAD, rd := some 5, addr := some 10 }, 0, 0, 0⟩
      ⟨false, none, 0, 0⟩ = true :=
  (claim_C5 _ _ _).mpr ⟨rfl, rfl, _, _, 5, rfl, rfl, rfl, rfl, by decide, Or.inl rfl⟩

/-- Claim C6: whenever the forwarding selector chooses the EX/MEM source
for an operand but the EX/MEM instruction is a LOAD, `apply_forwarding`
suppresses the forward and returns the operand value latched in ID/EX (it
does not fall back to MEM/WB). -/
theorem claim_C6 (id_ex : IDEX) (ex_mem : EXMEM) (mem_wb : MEMWB) (j : Instr)
    (hj : ex_mem.instruction = some j) (hop : j.op = Op.LOAD) :
    ((HazardControl.get_forwarding_signals id_ex ex_mem mem_wb).1 =
        HazardControl.Sig.sigExMem →
      (HazardControl.apply_forwarding id_ex ex_mem mem_wb).1 = id_ex.rs1_value) ∧
    ((HazardControl.get_forwarding_signals id_ex ex_mem mem_wb).2 =
        HazardControl.Sig.sigExMem →
      (HazardControl.apply_forwarding id_ex ex_mem mem_wb).2 = id_ex.rs2_value) := by
  constructor <;> intro hsig <;>
    (unfold HazardControl.apply_forwarding; dsimp only; repeat' split) <;>
    simp_all

/-- Witness for C6: a configuration where the selector picks EX/MEM for
`rs1` and EX/MEM holds a LOAD; the latched value is returned. -/
theorem claim_C6_witness :
    (HazardControl.apply_forwarding
      ⟨true, some { op := Op.ADD, rd := some 4, rs1 := some 2, rs2 := some 3 }, 7, 8, 0⟩
      ⟨true, some { op := Op.LOAD, rd := some 2, addr := some 10 }, 99, 0⟩
      ⟨false, none, 0⟩).1 = 7 :=
  (claim_C6
    ⟨true, some { op := Op.ADD, rd := some 4, rs1 := some 2, rs2 := some 3 }, 7, 8, 0⟩
    ⟨true, some { op := Op.LOAD, rd := some 2, addr := some 10 }, 99, 0⟩
    ⟨false, none, 0⟩ _ rfl rfl).1 (by decide)

/-!
Embedding of
`src/Simulación de Interfaz E_S y Memoria en Python/cache_simulator.py`.
Addresses are non-negative (`Nat`).  The Python address decomposition uses
bit masks; for any address `A` and bit counts `k`, `A & (2^k - 1) = A % 2^k`
and `A >> k = A / 2^k`, so the decomposition below uses `%`/`/` with the
same values.  `memoria_principal` is filled with pseudo-random bytes at
construction; the constructors here take the initial contents as a
parameter standing for that random list.
-/

/-- Fuel-bounded helper for `log2floor`; the fuel is an upper bound on the
number of halvings. -/
def log2Aux : Nat → Nat → Nat
  | 0, _ => 0
  | fuel + 1, n => if 2 ≤ n then log2Aux fuel (n / 2) + 1 else 0

/-- `int(math.log2(n))`: the floor of the base-2 logarithm (the cache
parameters are powers of two, for which this is exact). -/
def log2floor (n : Nat) : Nat := log2Aux n n

/-- `BloqueCache`: one cache block. -/
structure BloqueCache where
  etiqueta : Int
  datos : List Int
  valido : Bool
  contador_uso : Nat
deriving DecidableEq, Repr

/-- `BloqueCache(tamano_bloque)`: invalid block with tag `-1`. -/
def BloqueCache.init (tamano_bloque : Nat) : BloqueCache :=
  ⟨-1, List.replicate tamano_bloque 0, false, 0⟩

/-- Default block used to totalise list indexing; the simulator only
indexes positions that exist. -/
def bloqueDefault : BloqueCache := ⟨-1, [], false, 0⟩

/-- The block-fill loop shared by the read and write misses:
`for i in range(tamano_bloque): if base+i < tamano_memoria:
datos[i] = memoria_principal[base+i]`.  `i` is the next position, `n` the
number of remaining iterations. -/
def llenarDesde (datos memoria : List Int) (base tamano_memoria i n : Nat) :
    List Int :=
  match n with
  | 0 => datos
  | n + 1 =>
    llenarDesde
      (if base + i < tamano_memoria then
        datos.set i (memoria.getD (base + i) 0)
      else datos)
      memoria base tamano_memoria (i + 1) n

theorem llenarDesde_length (datos memoria : List Int)
    (base tamano_memoria i n : Nat) :
    (llenarDesde datos memoria base tamano_memoria i n).length = datos.length := by
  induction n generalizing datos i with
  | zero => rfl
  | succ m ih =>
    unfold llenarDesde
    rw [ih]
    split <;> simp

/-- `CacheMapeoDirecto`: direct-mapped cache state (including the fields
inherited from `CacheBase`). -/
structure CacheMapeoDirecto where
  tamano_bloque : Nat
  num_lineas : Nat
  tamano_memoria : Nat
  accesos : Nat
  aciertos : Nat
  fallos : Nat
  memoria_principal : List Int
  lineas : List BloqueCache
  bits_offset : Nat
  bits_indice : Nat
deriving DecidableEq, Repr

namespace CacheMapeoDirecto

/-- `CacheMapeoDirecto(tamano_bloque, num_lineas, tamano_memoria)`;
`memoria` stands for the pseudo-random initial main-memory contents. -/
def init (tamano_bloque num_lineas tamano_memoria : Nat) (memoria : List Int) :
    CacheMapeoDirecto :=
  { tamano_bloque := tamano_bloque
    num_lineas := num_lineas
    tamano_memoria := tamano_memoria
    accesos := 0
    aciertos := 0
    fallos := 0
    memoria_principal := memoria
    lineas := List.replicate num_lineas (BloqueCache.init tamano_bloque)
    bits_offset := log2floor tamano_bloque
    bits_indice := log2floor num_lineas }

/-- `_desglosar_direccion`: returns `(etiqueta, indice, offset)`. -/
def desglosar_direccion (c : CacheMapeoDirecto) (direccion : Nat) :
    Nat × Nat × Nat :=
  (direccion / 2 ^ (c.bits_offset + c.bits_indice),
   direccion / 2 ^ c.bits_offset % 2 ^ c.bits_indice,
   direccion % 2 ^ c.bits_offset)

/-- `direccion_base = (etiqueta << (bits_offset+bits_indice)) |
(indice << bits_offset)`; the two shifted fields occupy disjoint bit
ranges, so the or is the sum. -/
def direccion_base (c : CacheMapeoDirecto) (etiqueta indice : Nat) : Nat :=
  etiqueta * 2 ^ (c.bits_offset + c.bits_indice) + indice * 2 ^ c.bits_offset

/-- `leer(direccion)`: returns the updated cache and the word read. -/
def leer (c : CacheMapeoDirecto) (direccion : Nat) : CacheMapeoDirecto × Int :=
  let d := c.desglosar_direccion direccion
  let etiqueta := d.1
  let indice := d.2.1
  let offset := d.2.2
  let linea := c.lineas.getD indice bloqueDefault
  if linea.valido ∧ linea.etiqueta = (etiqueta : Int) then
    ({ c with accesos := c.accesos + 1, aciertos := c.aciertos + 1 },
     linea.datos.getD offset 0)
  else
    let datos := llenarDesde linea.datos c.memoria_principal
      (c.direccion_base etiqueta indice) c.tamano_memoria 0 c.tamano_bloque
    let nueva := { linea with etiqueta := (etiqueta : Int), datos := datos, valido := true }
    ({ c with
        accesos := c.accesos + 1,
        fallos := c.fallos + 1,
        lineas := c.lineas.set indice nueva },
     datos.getD offset 0)

/-- `escribir(direccion, dato)`: write-through with write-allocate. -/
def escribir (c : CacheMapeoDirecto) (direccion : Nat) (dato : Int) :
    CacheMapeoDirecto :=
  let d := c.desglosar_direccion direccion
  let etiqueta := d.1
  let indice := d.2.1
  let offset := d.2.2
  let linea := c.lineas.getD indice bloqueDefault
  let hit := linea.valido ∧ linea.etiqueta = (etiqueta : Int)
  let linea1 :=
    if hit then linea
    else
      { linea with
        etiqueta := (etiqueta : Int),
        datos := llenarDesde linea.datos c.memoria_principal
          (c.direccion_base etiqueta indice) c.tamano_memoria 0 c.tamano_bloque,
        valido := true }
  let linea2 := { linea1 with datos := linea1.datos.set offset dato }
  { c with
    accesos := c.accesos + 1,
    aciertos := if hit then c.aciertos + 1 else c.aciertos,
    fallos := if hit then c.fallos else c.fallos + 1,
    lineas := c.lineas.set indice linea2,
    memoria_principal :=
      if direccion < c.tamano_memoria then
        c.memoria_principal.set direccion dato
      else c.memoria_principal }

end CacheMapeoDirecto

/-- `CacheAsociativaConjuntos`: 2-way set-associative cache state
(including the fields inherited from `CacheBase`; the base class receives
`num_conjuntos * 2` as its line count). -/
structure CacheAsociativaConjuntos where
  tamano_bloque : Nat
  num_lineas : Nat
  tamano_memoria : Nat
  accesos : Nat
  aciertos : Nat
  fallos : Nat
  memoria_principal : List Int
  num_conjuntos : Nat
  vias_por_conjunto : Nat
  conjuntos : List (List BloqueCache)
  bits_offset : Nat
  bits_indice : Nat
  contador_global : Nat
deriving DecidableEq, Repr

namespace CacheAsociativaConjuntos

/-- `CacheAsociativaConjuntos(tamano_bloque, num_conjuntos, tamano_memoria)`. -/
def init (tamano_bloque num_conjuntos tamano_memoria : Nat) (memoria : List Int) :
    CacheAsociativaConjuntos :=
  { tamano_bloque := tamano_bloque
    num_lineas := num_conjuntos * 2
    tamano_memoria := tamano_memoria
    accesos := 0
    aciertos := 0
    fallos := 0
    memoria_principal := memoria
    num_conjuntos := num_conjuntos
    vias_por_conjunto := 2
    conjuntos := List.replicate num_conjuntos
      (List.replicate 2 (BloqueCache.init tamano_bloque))
    bits_offset := log2floor tamano_bloque
    bits_indice := log2floor num_conjuntos
    contador_global := 0 }

/-- `_desglosar_direccion`: returns `(etiqueta, indice, offset)`. -/
def desglosar_direccion (c : CacheAsociativaConjuntos) (direccion : Nat) :
    Nat × Nat × Nat :=
  (direccion / 2 ^ (c.bits_offset + c.bits_indice),
   direccion / 2 ^ c.bits_offset % 2 ^ c.bits_indice,
   direccion % 2 ^ c.bits_offset)

/-- The scan loop of `_encontrar_via`: `i` is the index of the head of the
remaining list. -/
def encontrarViaAux (etiqueta : Int) : List BloqueCache → Nat → Option Nat
  | [], _ => none
  | b :: rest, i =>
    if b.valido ∧ b.etiqueta = etiqueta then some i
    else encontrarViaAux etiqueta rest (i + 1)

/-- `_encontrar_via(conjunto, etiqueta)`: first way holding the tag. -/
def encontrar_via (vias : List BloqueCache) (etiqueta : Int) : Option Nat :=
  encontrarViaAux etiqueta vias 0

/-- The LRU scan of `_seleccionar_via_reemplazo` once all ways are valid:
running minimum of `contador_uso`, strict comparison, so ties keep the
lower way index. -/
def argminContador (vias : List BloqueCache) (i lru_via min_contador : Nat) :
    Nat :=
  match vias with
  | [] => lru_via
  | b :: rest =>
    if b.contador_uso < min_contador then
      argminContador rest (i + 1) i b.contador_uso
    else
      argminContador rest (i + 1) lru_via min_contador

/-- The first scan loop of `_seleccionar_via_reemplazo`: first invalid way. -/
def primeraInvalida : List BloqueCache → Nat → Option Nat
  | [], _ => none
  | b :: rest, i =>
    if ¬ b.valido then some i else primeraInvalida rest (i + 1)

/-- `_seleccionar_via_reemplazo(conjunto)`: an invalid way if any,
otherwise the LRU way. -/
def seleccionar_via_reemplazo (vias : List BloqueCache) : Nat :=
  match primeraInvalida vias 0 with
  | some i => i
  | none => argminContador (vias.drop 1) 1 0 (vias.getD 0 bloqueDefault).contador_uso

/-- `direccion_base` as in the direct-mapped cache. -/
def direccion_base (c : CacheAsociativaConjuntos) (etiqueta indice : Nat) : Nat :=
  etiqueta * 2 ^ (c.bits_offset + c.bits_indice) + indice * 2 ^ c.bits_offset

/-- `leer(direccion)`: returns the updated cache and the word read.
`contador_global` is incremented at entry and its new value stamps the
touched way. -/
def leer (c : CacheAsociativaConjuntos) (direccion : Nat) :
    CacheAsociativaConjuntos × Int :=
  let g := c.contador_global + 1
  let d := c.desglosar_direccion direccion
  let etiqueta := d.1
  let indice := d.2.1
  let offset := d.2.2
  let conjunto := c.conjuntos.getD indice []
  match encontrar_via conjunto (etiqueta : Int) with
  | some via =>
    let b := conjunto.getD via bloqueDefault
    let b1 := { b with contador_uso := g }
    ({ c with
        accesos := c.accesos + 1,
        aciertos := c.aciertos + 1,
        contador_global := g,
        conjuntos := c.conjuntos.set indice (conjunto.set via b1) },
     b.datos.getD offset 0)
  | none =>
    let via := seleccionar_via_reemplazo conjunto
    let b := conjunto.getD via bloqueDefault
    let datos := llenarDesde b.datos c.memoria_principal
      (c.direccion_base etiqueta indice) c.tamano_memoria 0 c.tamano_bloque
    let b1 : BloqueCache := ⟨(etiqueta : Int), datos, true, g⟩
    ({ c with
        accesos := c.accesos + 1,
        fallos := c.fallos + 1,
        contador_global := g,
        conjuntos := c.conjuntos.set indice (conjunto.set via b1) },
     datos.getD offset 0)

/-- `escribir(direccion, dato)`: write-through with write-allocate. -/
def escribir (c : CacheAsociativaConjuntos) (direccion : Nat) (dato : Int) :
    CacheAsociativaConjuntos :=
  let g := c.contador_global + 1
  let d := c.desglosar_direccion direccion
  let etiqueta := d.1
  let indice := d.2.1
  let offset := d.2.2
  let conjunto := c.conjuntos.getD indice []
  let memoria :=
    if direccion < c.tamano_memoria then
      c.memoria_principal.set direccion dato
    else c.memoria_principal
  match encontrar_via conjunto (etiqueta : Int) with
  | some via =>
    let b := conjunto.getD via bloqueDefault
    let b1 := { b with
      contador_uso := g,
      datos := b.datos.set offset dato }
    { c with
      accesos := c.accesos + 1,
      aciertos := c.aciertos + 1,
      contador_global := g,
      conjuntos := c.conjuntos.set indice (conjunto.set via b1),
      memoria_principal := memoria }
  | none =>
    let via := seleccionar_via_reemplazo conjunto
    let b := conjunto.getD via bloqueDefault
    let datos := llenarDesde b.datos c.memoria_principal
      (c.direccion_base etiqueta indice) c.tamano_memoria 0 c.tamano_bloque
    let b1 : BloqueCache := ⟨(etiqueta : Int), datos.set offset dato, true, g⟩
    { c with
      accesos := c.accesos + 1,
      fallos := c.fallos + 1,
      contador_global := g,
      conjuntos := c.conjuntos.set indice (conjunto.set via b1),
      memoria_principal := memoria }

end CacheAsociativaConjuntos

/-- Scenario S7 of the specification: a fresh 2-way cache with block size 1
and one set, then the access sequence `read A, read B, read A, read C`.
Returns the final state and, for inspecting the LRU counters at the moment
of the eviction decision, the state just before the read of `C`. -/
def escenarioS7 (A B C M : Nat) (mem : List Int) :
    CacheAsociativaConjuntos × CacheAsociativaConjuntos :=
  let c0 := CacheAsociativaConjuntos.init 1 1 M mem
  let s1 := (c0.leer A).1
  let s2 := (s1.leer B).1
  let s3 := (s2.leer A).1
  ((s3.leer C).1, s3)

open CacheAsociativaConjuntos in
/-- Claim C7: with block size 1 and a single 2-way set, after reading three
pairwise-distinct addresses in the order A, B, A, C, the miss on C evicts
B's block (A's way holds the strictly larger LRU counter at the decision
and survives), the final set holds A in way 0 and C in way 1, and the
statistics show exactly 1 hit and 3 misses. -/
theorem claim_C7 (A B C M : Nat) (mem : List Int)
    (hAB : A ≠ B) (hAC : A ≠ C) (hBC : B ≠ C) :
    (escenarioS7 A B C M mem).1.aciertos = 1 ∧
    (escenarioS7 A B C M mem).1.fallos = 3 ∧
    ((escenarioS7 A B C M mem).2.conjuntos.getD 0 []).map
      BloqueCache.contador_uso = [3, 2] ∧
    ((escenarioS7 A B C M mem).1.conjuntos.getD 0 []).map
      (fun b => (b.etiqueta, b.valido)) = [((A : Int), true), ((C : Int), true)] := by
  have e1 : ((CacheAsociativaConjuntos.init 1 1 M mem).leer A).1 =
      { tamano_bloque := 1, num_lineas := 2, tamano_memoria := M, accesos := 1,
        aciertos := 0, fallos := 1, memoria_principal := mem, num_conjuntos := 1,
        vias_por_conjunto := 2,
        conjuntos := [[⟨(A : Int), llenarDesde [0] mem A M 0 1, true, 1⟩,
                       ⟨-1, [0], false, 0⟩]],
        bits_offset := 0, bits_indice := 0, contador_global := 1 } := by
    simp [init, leer, desglosar_direccion, encontrar_via, encontrarViaAux,
      seleccionar_via_reemplazo, primeraInvalida, direccion_base,
      BloqueCache.init, log2floor, log2Aux, Nat.mod_one, Nat.div_one, pow_zero]
  generalize hd1 : llenarDesde [0] mem A M 0 1 = d1 at e1
  have e2 : ∀ s : CacheAsociativaConjuntos, s =
      { tamano_bloque := 1, num_lineas := 2, tamano_memoria := M, accesos := 1,
        aciertos := 0, fallos := 1, memoria_principal := mem, num_conjuntos := 1,
        vias_por_conjunto := 2,
        conjuntos := [[⟨(A : Int), d1, true, 1⟩, ⟨-1, [0], false, 0⟩]],
        bits_offset := 0, bits_indice := 0, contador_global := 1 } →
      (s.leer B).1 =
      { tamano_bloque := 1, num_lineas := 2, tamano_memoria := M, accesos := 2,
        aciertos := 0, fallos := 2, memoria_principal := mem, num_conjuntos := 1,
        vias_por_conjunto := 2,
        conjuntos := [[⟨(A : Int), d1, true, 1⟩,
                       ⟨(B : Int), llenarDesde [0] mem B M 0 1, true, 2⟩]],
        bits_offset := 0, bits_indice := 0, contador_global := 2 } := by
    intro s hs; subst hs
    simp [leer, desglosar_direccion, encontrar_via, encontrarViaAux,
      seleccionar_via_reemplazo, primeraInvalida, direccion_base,
      bloqueDefault, Nat.mod_one, Nat.div_one, pow_zero, hAB]
  generalize hd2 : llenarDesde [0] mem B M 0 1 = d2 at e2
  have e3 : ∀ s : CacheAsociativaConjuntos, s =
      { tamano_bloque := 1, num_lineas := 2, tamano_memoria := M, accesos := 2,
        aciertos := 0, fallos := 2, memoria_principal := mem, num_conjuntos := 1,
        vias_por_conjunto := 2,
        conjuntos := [[⟨(A : Int), d1, true, 1⟩, ⟨(B : Int), d2, true, 2⟩]],
        bits_offset := 0, bits_indice := 0, contador_global := 2 } →
      (s.leer A).1 =
      { tamano_bloque := 1, num_lineas := 2, tamano_memoria := M, accesos := 3,
        aciertos := 1, fallos := 2, memoria_principal := mem, num_conjuntos := 1,
        vias_por_conjunto := 2,
        conjuntos := [[⟨(A : Int), d1, true, 3⟩, ⟨(B : Int), d2, true, 2⟩]],
        bits_offset := 0, bits_indice := 0, contador_global := 3 } := by
    intro s hs; subst hs
    simp [leer, desglosar_direccion, encontrar_via, encontrarViaAux,
      bloqueDefault, Nat.mod_one, Nat.div_one, pow_zero]
  have e4 : ∀ s : CacheAsociativaConjuntos, s =
      { tamano_bloque := 1, num_lineas := 2, tamano_memoria := M, accesos := 3,
        aciertos := 1, fallos := 2, memoria_principal := mem, num_conjuntos := 1,
        vias_por_conjunto := 2,
        conjuntos := [[⟨(A : Int), d1, true, 3⟩, ⟨(B : Int), d2, true, 2⟩]],
        bits_offset := 0, bits_indice := 0, contador_global := 3 } →
      (s.leer C).1 =
      { tamano_bloque := 1, num_lineas := 2, tamano_memoria := M, accesos := 4,
        aciertos := 1, fallos := 3, memoria_principal := mem, num_conjuntos := 1,
        vias_por_conjunto := 2,
        conjuntos := [[⟨(A : Int), d1, true, 3⟩,
                       ⟨(C : Int), llenarDesde d2 mem C M 0 1, true, 4⟩]],
        bits_offset := 0, bits_indice := 0, contador_global := 4 } := by
    intro s hs; subst hs
    simp [leer, desglosar_direccion, encontrar_via, encontrarViaAux,
      seleccionar_via_reemplazo, primeraInvalida, argminContador, direccion_base,
      bloqueDefault, Nat.mod_one, Nat.div_one, pow_zero, hAC, hBC]
  simp only [escenarioS7]
  rw [e1, e2 _ rfl, e3 _ rfl, e4 _ rfl]
  simp

/-- Witness for C7 at concrete addresses 0, 1, 2. -/
theorem claim_C7_witness :
    (escenarioS7 0 1 2 4 [5, 6, 7, 8]).1.aciertos = 1 ∧
    (escenarioS7 0 1 2 4 [5, 6, 7, 8]).1.fallos = 3 ∧
    ((escenarioS7 0 1 2 4 [5, 6, 7, 8]).2.conjuntos.getD 0 []).map
      BloqueCache.contador_uso = [3, 2] ∧
    ((escenarioS7 0 1 2 4 [5, 6, 7, 8]).1.conjuntos.getD 0 []).map
      (fun b => (b.etiqueta, b.valido)) =
        [(((0 : Nat) : Int), true), (((2 : Nat) : Int), true)] :=
  claim_C7 0 1 2 4 [5, 6, 7, 8] (by decide) (by decide) (by decide)

/-- The way index that `CacheAsociativaConjuntos.escribir` selects for an
address: the hit way when the tag is present, otherwise the replacement
way, exactly as computed in its body. -/
def CacheAsociativaConjuntos.viaSeleccionada (c : CacheAsociativaConjuntos)
    (direccion : Nat) : Nat :=
  let d := c.desglosar_direccion direccion
  let conjunto := c.conjuntos.getD d.2.1 []
  match CacheAsociativaConjuntos.encontrar_via conjunto (d.1 : Int) with
  | some via => via
  | none => CacheAsociativaConjuntos.seleccionar_via_reemplazo conjunto

/-- Claim C10: a write to an address at or beyond `tamano_memoria` returns
normally, stores the value into the selected cache block at the decomposed
offset, and leaves every word of main memory unchanged, in both cache
variants (the write-through store is guarded by `direccion <
tamano_memoria`; the index/offset bounds hypotheses say the address decomposes
into an existing line and slot, as every in-shape cache guarantees). -/
theorem claim_C10 (c : CacheMapeoDirecto) (c2 : CacheAsociativaConjuntos)
    (A A2 : Nat) (v v2 : Int)
    (hA : c.tamano_memoria ≤ A)
    (hidx : (c.desglosar_direccion A).2.1 < c.lineas.length)
    (hoff : (c.desglosar_direccion A).2.2 <
      ((c.lineas.getD (c.desglosar_direccion A).2.1 bloqueDefault).datos).length)
    (hA2 : c2.tamano_memoria ≤ A2)
    (hidx2 : (c2.desglosar_direccion A2).2.1 < c2.conjuntos.length)
    (hvia2 : c2.viaSeleccionada A2 <
      (c2.conjuntos.getD (c2.desglosar_direccion A2).2.1 []).length)
    (hoff2 : (c2.desglosar_direccion A2).2.2 <
      (((c2.conjuntos.getD (c2.desglosar_direccion A2).2.1 []).getD
        (c2.viaSeleccionada A2) bloqueDefault).datos).length) :
    ((c.escribir A v).memoria_principal = c.memoria_principal ∧
     ((c.escribir A v).lineas.getD (c.desglosar_direccion A).2.1
        bloqueDefault).datos.getD (c.desglosar_direccion A).2.2 0 = v) ∧
    ((c2.escribir A2 v2).memoria_principal = c2.memoria_principal ∧
     (((c2.escribir A2 v2).conjuntos.getD (c2.desglosar_direccion A2).2.1
        []).getD (c2.viaSeleccionada A2) bloqueDefault).datos.getD
        (c2.desglosar_direccion A2).2.2 0 = v2) := by
  refine ⟨⟨?_, ?_⟩, ?_, ?_⟩
  · unfold CacheMapeoDirecto.escribir
    dsimp only
    rw [if_neg (by omega)]
  · unfold CacheMapeoDirecto.escribir
    dsimp only
    simp only [List.getD_eq_getElem?_getD]
    rw [List.getElem?_set_eq_of_lt _ (by simpa [List.getD_eq_getElem?_getD] using hidx),
      Option.getD_some]
    by_cases hhit : ((c.lineas.getD (c.desglosar_direccion A).2.1 bloqueDefault).valido = true ∧
        (c.lineas.getD (c.desglosar_direccion A).2.1 bloqueDefault).etiqueta =
          ((c.desglosar_direccion A).1 : Int))
    · rw [if_pos (by simpa [List.getD_eq_getElem?_getD] using hhit)]
      rw [List.getElem?_set_eq_of_lt _ (by simpa [List.getD_eq_getElem?_getD] using hoff)]
      rfl
    · rw [if_neg (by simpa [List.getD_eq_getElem?_getD] using hhit)]
      dsimp only
      rw [List.getElem?_set_eq_of_lt _ (by
        simpa [List.getD_eq_getElem?_getD, llenarDesde_length] using hoff)]
      rfl
  · unfold CacheAsociativaConjuntos.escribir
    dsimp only
    rcases hv : CacheAsociativaConjuntos.encontrar_via
        (c2.conjuntos.getD (c2.desglosar_direccion A2).2.1 [])
        ((c2.desglosar_direccion A2).1 : Int) with _ | via <;>
      simp only [hv] <;> rw [if_neg (by omega)]
  · unfold CacheAsociativaConjuntos.viaSeleccionada at hvia2 hoff2 ⊢
    unfold CacheAsociativaConjuntos.escribir
    dsimp only at hvia2 hoff2 ⊢
    rcases hv : CacheAsociativaConjuntos.encontrar_via
        (c2.conjuntos.getD (c2.desglosar_direccion A2).2.1 [])
        ((c2.desglosar_direccion A2).1 : Int) with _ | via
    · rw [hv] at hvia2 hoff2
      dsimp only at hvia2 hoff2 ⊢
      simp only [List.getD_eq_getElem?_getD] at hvia2 hoff2 ⊢
      rw [List.getElem?_set_eq_of_lt _ (by simpa using hidx2), Option.getD_some,
        List.getElem?_set_eq_of_lt _ (by simpa using hvia2), Option.getD_some]
      dsimp only
      rw [List.getElem?_set_eq_of_lt _ (by simpa [llenarDesde_length] using hoff2)]
      rfl
    · rw [hv] at hvia2 hoff2
      dsimp only at hvia2 hoff2 ⊢
      simp only [List.getD_eq_getElem?_getD] at hvia2 hoff2 ⊢
      rw [List.getElem?_set_eq_of_lt _ (by simpa using hidx2), Option.getD_some,
        List.getElem?_set_eq_of_lt _ (by simpa using hvia2), Option.getD_some]
      dsimp only
      rw [List.getElem?_set_eq_of_lt _ (by simpa using hoff2)]
      rfl

/-- Witness for C10: concrete small caches and out-of-range addresses. -/
theorem claim_C10_witness :
    (((CacheMapeoDirecto.init 1 2 4 [1, 2, 3, 4]).escribir 10 9).memoria_principal =
        (CacheMapeoDirecto.init 1 2 4 [1, 2, 3, 4]).memoria_principal ∧
      (((CacheMapeoDirecto.init 1 2 4 [1, 2, 3, 4]).escribir 10 9).lineas.getD
          ((CacheMapeoDirecto.init 1 2 4 [1, 2, 3, 4]).desglosar_direccion 10).2.1
          bloqueDefault).datos.getD
        ((CacheMapeoDirecto.init 1 2 4 [1, 2, 3, 4]).desglosar_direccion 10).2.2 0 = 9) ∧
    (((CacheAsociativaConjuntos.init 1 1 4 [1, 2, 3, 4]).escribir 7 8).memoria_principal =
        (CacheAsociativaConjuntos.init 1 1 4 [1, 2, 3, 4]).memoria_principal ∧
      ((((CacheAsociativaConjuntos.init 1 1 4 [1, 2, 3, 4]).escribir 7 8).conjuntos.getD
          ((CacheAsociativaConjuntos.init 1 1 4 [1, 2, 3, 4]).desglosar_direccion 7).2.1
          []).getD
          ((CacheAsociativaConjuntos.init 1 1 4 [1, 2, 3, 4]).viaSeleccionada 7)
          bloqueDefault).datos.getD
        ((CacheAsociativaConjuntos.init 1 1 4 [1, 2, 3, 4]).desglosar_direccion 7).2.2 0 = 8) :=
  claim_C10 (CacheMapeoDirecto.init 1 2 4 [1, 2, 3, 4])
    (CacheAsociativaConjuntos.init 1 1 4 [1, 2, 3, 4]) 10 7 9 8
    (by decide) (by decide) (by decide) (by decide) (by decide) (by decide) (by decide)

namespace ISA

/-!
Embedding of `src/CPU/src/isa.py` (`class ISA`): the 32-bit instruction
encoder and decoder.  Encoded words are non-negative (`Nat`); register
fields are shifted unmasked, exactly as in the source.  Python's
`x & (2^k - 1)` on a possibly negative `x` equals the mathematical
`x mod 2^k`, which is what `Int.emod` by a positive modulus computes; the
encoder masks immediates that way.  The decoder's sign-extension step
`value |= mask` sets disjoint high bits of a value whose bits lie below
them, and on Python's unbounded ints it yields a large positive integer,
never a negative one; `Nat.lor` reproduces it exactly.
-/

/-- The instruction formats `{R, I, S, B, J}`. -/
inductive Format where
  | R | I | S | B | J
deriving DecidableEq, Repr

/-- The `OPCODES` table; `none` for an op not in the table. -/
def OPCODES (op : Op) : Option Nat :=
  match op with
  | Op.ADD => some 0x00
  | Op.SUB => some 0x01
  | Op.MUL => some 0x02
  | Op.LOAD => some 0x03
  | Op.STORE => some 0x04
  | Op.BEQ => some 0x05
  | Op.JUMP => some 0x06
  | Op.NOP => none

/-- The `FORMATS` table (defined for the seven encodable ops). -/
def FORMATS (op : Op) : Option Format :=
  match op with
  | Op.ADD => some Format.R
  | Op.SUB => some Format.R
  | Op.MUL => some Format.R
  | Op.LOAD => some Format.I
  | Op.STORE => some Format.S
  | Op.BEQ => some Format.B
  | Op.JUMP => some Format.J
  | Op.NOP => none

/-- `instr.get(key, 0) & (2^k - 1)` for an integer field: the Python
bitwise and with an all-ones mask is the non-negative remainder mod `2^k`. -/
def maskedField (o : Option Int) (k : Nat) : Nat :=
  ((o.getD 0).emod (2 ^ k)).toNat

/-- `target & mask` for the `Nat`-valued target field. -/
def maskedTarget (o : Option Nat) (k : Nat) : Nat :=
  o.getD 0 % 2 ^ k

/-- `encode_instruction(instr)`: 0 for an op outside the table, otherwise
the fields shifted and or-ed per the format. -/
def encode_instruction (instr : Instr) : Nat :=
  match OPCODES instr.op, FORMATS instr.op with
  | some opcode, some Format.R =>
    (opcode <<< 26) ||| (instr.rs1.getD 0 <<< 21) ||| (instr.rs2.getD 0 <<< 16) |||
      (instr.rd.getD 0 <<< 11) ||| 0
  | some opcode, some Format.I =>
    (opcode <<< 26) ||| (instr.rs1.getD 0 <<< 21) ||| (instr.rd.getD 0 <<< 16) |||
      maskedField instr.addr 16
  | some opcode, some Format.S =>
    (opcode <<< 26) ||| (instr.rs.getD 0 <<< 21) ||| maskedField instr.addr 21
  | some opcode, some Format.B =>
    (opcode <<< 26) ||| (instr.rs1.getD 0 <<< 21) ||| (instr.rs2.getD 0 <<< 16) |||
      maskedTarget instr.target 16
  | some opcode, some Format.J =>
    (opcode <<< 26) ||| maskedTarget instr.target 26
  | _, _ => 0

/-- The decoder's opcode lookup: scan the `OPCODES` table for the value. -/
def opFromOpcode (opcode : Nat) : Option Op :=
  if opcode = 0x00 then some Op.ADD
  else if opcode = 0x01 then some Op.SUB
  else if opcode = 0x02 then some Op.MUL
  else if opcode = 0x03 then some Op.LOAD
  else if opcode = 0x04 then some Op.STORE
  else if opcode = 0x05 then some Op.BEQ
  else if opcode = 0x06 then some Op.JUMP
  else none

/-- The decoder's sign-extension idiom `value |= highMask if signBit set`:
on unbounded non-negative integers this sets the high bits and keeps the
value non-negative. -/
def signExtend (value : Nat) (signBit highMask : Nat) : Nat :=
  if value &&& signBit ≠ 0 then value ||| highMask else value

/-- `decode_instruction(binary)`: `{"op": "NOP"}` for an unknown opcode. -/
def decode_instruction (binary : Nat) : Instr :=
  let opcode := (binary >>> 26) &&& 0x3F
  match opFromOpcode opcode with
  | none => { op := Op.NOP }
  | some op =>
    match FORMATS op with
    | some Format.R =>
      { op := op,
        rs1 := some ((binary >>> 21) &&& 0x1F),
        rs2 := some ((binary >>> 16) &&& 0x1F),
        rd := some ((binary >>> 11) &&& 0x1F) }
    | some Format.I =>
      { op := op,
        rs1 := some ((binary >>> 21) &&& 0x1F),
        rd := some ((binary >>> 16) &&& 0x1F),
        addr := some ((signExtend (binary &&& 0xFFFF) 0x8000 0xFFFF0000 : Nat) : Int) }
    | some Format.S =>
      { op := op,
        rs := some ((binary >>> 21) &&& 0x1F),
        addr := some ((signExtend (binary &&& 0x1FFFFF) 0x100000 0xFFE00000 : Nat) : Int) }
    | some Format.B =>
      { op := op,
        rs1 := some ((binary >>> 21) &&& 0x1F),
        rs2 := some ((binary >>> 16) &&& 0x1F),
        target := some (signExtend (binary &&& 0xFFFF) 0x8000 0xFFFF0000) }
    | some Format.J =>
      { op := op,
        target := some (signExtend (binary &&& 0x3FFFFFF) 0x2000000 0xFC000000) }
    | none => { op := Op.NOP }

end ISA

/-- Claim C8 (code bug): encode-then-decode is not the identity on
sign-extended negative immediates.  For `LOAD rd=1, rs1=0, addr=-1` the
decoder's "sign extension" `immediate |= 0xFFFF0000` on Python's unbounded
integers produces the large positive value 4294967295 instead of a
negative number, so the round trip changes `addr` from `-1` to
4294967295. -/
theorem claim_C8_code_bug :
    ISA.decode_instruction (ISA.encode_instruction
      { op := Op.LOAD, rd := some 1, rs1 := some 0, addr := some (-1) }) =
      { op := Op.LOAD, rd := some 1, rs1 := some 0, addr := some 4294967295 } ∧
    ({ op := Op.LOAD, rd := some 1, rs1 := some 0,
       addr := some (4294967295 : Int) } : Instr) ≠
      { op := Op.LOAD, rd := some 1, rs1 := some 0, addr := some (-1) } := by
  constructor
  · decide
  · decide

namespace CPUv2

/-- EX on a valid JUMP: the pc moves to the target, `flush` is raised, the
branch is counted and IF/ID is invalidated; ID/EX itself is untouched. -/
theorem ex_jump (t : CPUState) (i : Instr) (hv : t.id_ex.valid = true)
    (hi : t.id_ex.instruction = some i) (hop : i.op = Op.JUMP) :
    execute_stage t =
      { t with
        pc := i.target.getD 0,
        flush := true,
        branches_taken := t.branches_taken + 1,
        if_id := ⟨false, none, i.target.getD 0⟩,
        view := { t.view with vIF := none, vID := none, vEX := some i },
        ex_mem := ⟨true, some i, 0,
          (HazardControl.apply_forwarding t.id_ex t.ex_mem t.mem_wb).2⟩ } := by
  unfold execute_stage
  simp [hv, hi, hop]

/-- Decode under a raised flush only invalidates IF/ID. -/
theorem decode_on_flush (t : CPUState) (hf : t.flush = true) :
    decode_stage t =
      { t with
        if_id := ⟨false, none, t.pc⟩,
        view := { t.view with vID := none } } := by
  unfold decode_stage
  simp [hf]

/-- A valid JUMP sitting in ID/EX never leaves: EX re-raises `flush` every
cycle, so decode always takes its flush path and never overwrites ID/EX,
and the refreshed view keeps showing the JUMP in ID. -/
theorem jump_stuck (s : CPUState) (i : Instr) (hv : s.id_ex.valid = true)
    (hi : s.id_ex.instruction = some i) (hop : i.op = Op.JUMP) :
    (step s).id_ex = s.id_ex ∧ (step s).view.vID = some i := by
  unfold step
  dsimp only
  set t := memory_stage (writeback_stage { s with cycles := s.cycles + 1 }) with ht
  have htv : t.id_ex = s.id_ex := by rw [ht]; simp
  rw [ex_jump t i (by rw [htv]; exact hv) (by rw [htv]; exact hi) hop]
  rw [decode_on_flush _ (by rfl)]
  dsimp only
  unfold fetch_stage update_pipeline_view
  dsimp only
  repeat' split
  all_goals simp_all

/-- Iterating from any state whose ID/EX holds a valid JUMP, the machine is
never drained: the JUMP re-executes every cycle. -/
theorem stuck_forever (i : Instr) (hop : i.op = Op.JUMP) :
    ∀ (n : Nat) (s : CPUState), s.id_ex.valid = true →
      s.id_ex.instruction = some i → halted (stepN (n + 1) s) = false := by
  intro n
  induction n with
  | zero =>
    intro s hv hi
    have h := jump_stuck s i hv hi hop
    show halted (step s) = false
    simp [halted, h.2]
  | succ m ih =>
    intro s hv hi
    have h := jump_stuck s i hv hi hop
    show halted (stepN (m + 1) (step s)) = false
    exact ih (step s) (by rw [h.1]; exact hv) (by rw [h.1]; exact hi)

end CPUv2

/-- The one-instruction program `[JUMP 0]`: a jump targeting itself. -/
def progJump0 : List Instr := [{ op := Op.JUMP, target := some 0 }]

/-- The one-instruction program `[JUMP 1]`: a jump over the program end. -/
def progJump1 : List Instr := [{ op := Op.JUMP, target := some 1 }]

/-- `[JUMP 1, ADD R1=R2+R3]`: a taken jump whose target is in range. -/
def progJump1Add : List Instr :=
  [{ op := Op.JUMP, target := some 1 },
   { op := Op.ADD, rd := some 1, rs1 := some 2, rs2 := some 3 }]

/-- Counterexample to C2: on the program `[JUMP 0]` the CPU-Pipeline
variant never reaches the drain condition, so `run` with no cycle limit
does not terminate: after the JUMP executes, decode's flush path never
clears ID/EX, and the JUMP re-executes every cycle. -/
theorem claim_C2_counterexample :
    ¬ ∃ n, CPUv2.halted (CPUv2.stepN n (CPUv2.initState progJump0)) = true := by
  rintro ⟨n, hn⟩
  rcases n with _ | n
  · exact absurd hn (by decide)
  rcases n with _ | n
  · exact absurd hn (by decide)
  rcases n with _ | m
  · exact absurd hn (by decide)
  have h2 : CPUv2.halted (CPUv2.stepN (m + 3) (CPUv2.initState progJump0)) = false :=
    CPUv2.stuck_forever { op := Op.JUMP, target := some 0 } rfl m
      (CPUv2.step (CPUv2.step (CPUv2.initState progJump0))) (by decide) (by decide)
  rw [hn] at h2
  exact Bool.noConfusion h2

/-- Counterexample to C1: on the program `[JUMP 1]` the CPU variant drains
after 5 cycles having taken the jump once, while the CPU-Pipeline variant
never drains (its decode never clears the JUMP out of ID/EX), so the two
variants are not observably equivalent. -/
theorem claim_C1_counterexample :
    CPUv1.halted (CPUv1.stepN 5 (CPUv1.initState progJump1)) = true ∧
    (CPUv1.stepN 5 (CPUv1.initState progJump1)).branches_taken = 1 ∧
    (CPUv1.stepN 5 (CPUv1.initState progJump1)).instructions_completed = 1 ∧
    ¬ ∃ n, CPUv2.halted (CPUv2.stepN n (CPUv2.initState progJump1)) = true := by
  refine ⟨by decide, by decide, by decide, ?_⟩
  rintro ⟨n, hn⟩
  rcases n with _ | n
  · exact absurd hn (by decide)
  rcases n with _ | n
  · exact absurd hn (by decide)
  rcases n with _ | m
  · exact absurd hn (by decide)
  have h2 : CPUv2.halted (CPUv2.stepN (m + 3) (CPUv2.initState progJump1)) = false :=
    CPUv2.stuck_forever { op := Op.JUMP, target := some 1 } rfl m
      (CPUv2.step (CPUv2.step (CPUv2.initState progJump1))) (by decide) (by decide)
  rw [hn] at h2
  exact Bool.noConfusion h2

/-- Latch well-formedness: a latch marked valid always carries an
instruction.  Every latch the simulator constructs satisfies this. -/
def wfLatches (s : CPUState) : Prop :=
  (s.if_id.valid = true → s.if_id.instruction.isSome = true) ∧
  (s.id_ex.valid = true → s.id_ex.instruction.isSome = true) ∧
  (s.ex_mem.valid = true → s.ex_mem.instruction.isSome = true) ∧
  (s.mem_wb.valid = true → s.mem_wb.instruction.isSome = true)

/-- All four latches are bubbles. -/
def latchesInvalid (s : CPUState) : Prop :=
  s.if_id.valid = false ∧ s.id_ex.valid = false ∧
  s.ex_mem.valid = false ∧ s.mem_wb.valid = false

namespace CPUv2

theorem mem_wf (s : CPUState) (h : wfLatches s) :
    wfLatches (memory_stage s) := by
  unfold memory_stage; dsimp only; repeat' split
  all_goals simp_all [wfLatches]

theorem ex_wf (s : CPUState) (h : wfLatches s) :
    wfLatches (execute_stage s) := by
  unfold execute_stage; dsimp only; repeat' split
  all_goals simp_all [wfLatches]

theorem dec_wf (s : CPUState) (h : wfLatches s) :
    wfLatches (decode_stage s) := by
  unfold decode_stage; dsimp only; repeat' split
  all_goals simp_all [wfLatches]

theorem fetch_wf (s : CPUState) (h : wfLatches s) :
    wfLatches (fetch_stage s) := by
  unfold fetch_stage; dsimp only; repeat' split
  all_goals simp_all [wfLatches]

theorem step_wf (s : CPUState) (h : wfLatches s) : wfLatches (step s) := by
  unfold step; dsimp only
  have h1 : wfLatches (writeback_stage { s with cycles := s.cycles + 1 }) := by
    have : wfLatches ({ s with cycles := s.cycles + 1 } : CPUState) := h
    simpa [wfLatches] using this
  have h2 := fetch_wf _ (dec_wf _ (ex_wf _ (mem_wf _ h1)))
  split
  · exact h2
  · exact h2

theorem stepN_wf (n : Nat) (s : CPUState) (h : wfLatches s) :
    wfLatches (stepN n s) := by
  induction n generalizing s with
  | zero => exact h
  | succ m ih => exact ih (step s) (step_wf s h)

theorem stepN_succ_r (n : Nat) (s : CPUState) :
    stepN (n + 1) s = step (stepN n s) := by
  induction n generalizing s with
  | zero => rfl
  | succ m ih => exact ih (step s)

theorem stepN_instructions (n : Nat) (s : CPUState) :
    (stepN n s).instructions = s.instructions := by
  induction n generalizing s with
  | zero => rfl
  | succ m ih => rw [stepN, ih, step_instructions]

theorem step_view_vIF (s : CPUState) :
    (step s).view.vIF =
      (if (step s).if_id.valid then (step s).if_id.instruction else none) := by
  unfold step; dsimp only; split <;> rfl

theorem step_view_vID (s : CPUState) :
    (step s).view.vID =
      (if (step s).id_ex.valid then (step s).id_ex.instruction else none) := by
  unfold step; dsimp only; split <;> rfl

theorem step_view_vEX (s : CPUState) :
    (step s).view.vEX =
      (if (step s).ex_mem.valid then (step s).ex_mem.instruction else none) := by
  unfold step; dsimp only; split <;> rfl

theorem step_view_vMEM (s : CPUState) :
    (step s).view.vMEM =
      (if (step s).mem_wb.valid then (step s).mem_wb.instruction else none) := by
  unfold step; dsimp only; split <;> rfl

/-- From a drained view and latch well-formedness, the latches themselves
are invalid. -/
theorem halted_latchesInvalid (p : List Instr) (n : Nat)
    (h : halted (stepN n (initState p)) = true) :
    latchesInvalid (stepN n (initState p)) ∧
      p.length ≤ (stepN n (initState p)).pc := by
  have hwf : wfLatches (stepN n (initState p)) :=
    stepN_wf n _ ⟨fun h => Bool.noConfusion h, fun h => Bool.noConfusion h,
      fun h => Bool.noConfusion h, fun h => Bool.noConfusion h⟩
  have hlen : (stepN n (initState p)).instructions = p := stepN_instructions n _
  simp only [halted, Bool.and_eq_true, decide_eq_true_eq, hlen] at h
  obtain ⟨⟨⟨⟨⟨hIF, hID⟩, hEX⟩, hMEM⟩, hWB⟩, hpc⟩ := h
  refine ⟨?_, hpc⟩
  cases n with
  | zero => exact ⟨rfl, rfl, rfl, rfl⟩
  | succ m =>
    rw [stepN_succ_r] at hIF hID hEX hMEM hwf ⊢
    obtain ⟨w1, w2, w3, w4⟩ := hwf
    rw [step_view_vIF] at hIF
    rw [step_view_vID] at hID
    rw [step_view_vEX] at hEX
    rw [step_view_vMEM] at hMEM
    refine ⟨?_, ?_, ?_, ?_⟩
    · rcases hv : (step (stepN m (initState p))).if_id.valid with _ | _
      · rfl
      · rw [hv] at hIF; simp at hIF; simp [hIF] at w1; rw [hv] at w1; exact Bool.noConfusion w1
    · rcases hv : (step (stepN m (initState p))).id_ex.valid with _ | _
      · rfl
      · rw [hv] at hID; simp at hID; simp [hID] at w2; rw [hv] at w2; exact Bool.noConfusion w2
    · rcases hv : (step (stepN m (initState p))).ex_mem.valid with _ | _
      · rfl
      · rw [hv] at hEX; simp at hEX; simp [hEX] at w3; rw [hv] at w3; exact Bool.noConfusion w3
    · rcases hv : (step (stepN m (initState p))).mem_wb.valid with _ | _
      · rfl
      · rw [hv] at hMEM; simp at hMEM; simp [hMEM] at w4; rw [hv] at w4; exact Bool.noConfusion w4

/-- Stepping increments `cycles` by exactly one, so a fuel-limited `run`
adds at most `fuel` cycles. -/
theorem run_cycles_le (fuel : Nat) (s : CPUState) :
    (run fuel s).cycles ≤ s.cycles + fuel := by
  induction fuel generalizing s with
  | zero => simp [run]
  | succ f ih =>
    unfold run
    split
    · omega
    · have := ih (step s)
      rw [step_cycles] at this
      omega

end CPUv2

namespace CPUv1

theorem mem_wf1 (s : CPUState) (h : wfLatches s) :
    wfLatches (memory_stage s) := by
  unfold memory_stage; dsimp only; repeat' split
  all_goals simp_all [wfLatches]

theorem ex_wf1 (s : CPUState) (h : wfLatches s) :
    wfLatches (execute_stage s) := by
  unfold execute_stage; dsimp only; repeat' split
  all_goals simp_all [wfLatches]

theorem dec_wf1 (s : CPUState) (h : wfLatches s) :
    wfLatches (decode_stage s) := by
  unfold decode_stage; dsimp only; repeat' split
  all_goals simp_all [wfLatches]

theorem fetch_wf1 (s : CPUState) (h : wfLatches s) :
    wfLatches (fetch_stage s) := by
  unfold fetch_stage; dsimp only; repeat' split
  all_goals simp_all [wfLatches]

theorem step_wf1 (s : CPUState) (h : wfLatches s) : wfLatches (step s) := by
  unfold step; dsimp only
  have h1 : wfLatches (execute_stage (memory_stage
      (writeback_stage { s with cycles := s.cycles + 1 }))) := by
    refine ex_wf1 _ (mem_wf1 _ ?_)
    have : wfLatches ({ s with cycles := s.cycles + 1 } : CPUState) := h
    simpa [wfLatches] using this
  split
  · exact fetch_wf1 _ (dec_wf1 _
      ⟨fun hh => Bool.noConfusion hh, h1.2.1, h1.2.2.1, h1.2.2.2⟩)
  · exact fetch_wf1 _ (dec_wf1 _ h1)

theorem stepN_wf1 (n : Nat) (s : CPUState) (h : wfLatches s) :
    wfLatches (stepN n s) := by
  induction n generalizing s with
  | zero => exact h
  | succ m ih => exact ih (step s) (step_wf1 s h)

theorem stepN_succ_r1 (n : Nat) (s : CPUState) :
    stepN (n + 1) s = step (stepN n s) := by
  induction n generalizing s with
  | zero => rfl
  | succ m ih => exact ih (step s)

theorem stepN_instructions1 (n : Nat) (s : CPUState) :
    (stepN n s).instructions = s.instructions := by
  induction n generalizing s with
  | zero => rfl
  | succ m ih => rw [stepN, ih, step_instructions1]

theorem step_view_vIF1 (s : CPUState) :
    (step s).view.vIF =
      (if (step s).if_id.valid then (step s).if_id.instruction else none) := rfl

theorem step_view_vID1 (s : CPUState) :
    (step s).view.vID =
      (if (step s).id_ex.valid then (step s).id_ex.instruction else none) := rfl

theorem step_view_vEX1 (s : CPUState) :
    (step s).view.vEX =
      (if (step s).ex_mem.valid then (step s).ex_mem.instruction else none) := rfl

theorem step_view_vMEM1 (s : CPUState) :
    (step s).view.vMEM =
      (if (step s).mem_wb.valid then (step s).mem_wb.instruction else none) := rfl

/-- From a drained view and latch well-formedness, the latches themselves
are invalid. -/
theorem halted_latchesInvalid1 (p : List Instr) (n : Nat)
    (h : halted (stepN n (initState p)) = true) :
    latchesInvalid (stepN n (initState p)) ∧
      p.length ≤ (stepN n (initState p)).pc := by
  have hwf : wfLatches (stepN n (initState p)) :=
    stepN_wf1 n _ ⟨fun h => Bool.noConfusion h, fun h => Bool.noConfusion h,
      fun h => Bool.noConfusion h, fun h => Bool.noConfusion h⟩
  have hlen : (stepN n (initState p)).instructions = p := stepN_instructions1 n _
  simp only [halted, Bool.and_eq_true, decide_eq_true_eq, hlen] at h
  obtain ⟨⟨⟨⟨⟨hIF, hID⟩, hEX⟩, hMEM⟩, hWB⟩, hpc⟩ := h
  refine ⟨?_, hpc⟩
  cases n with
  | zero => exact ⟨rfl, rfl, rfl, rfl⟩
  | succ m =>
    rw [stepN_succ_r1] at hIF hID hEX hMEM hwf ⊢
    obtain ⟨w1, w2, w3, w4⟩ := hwf
    rw [step_view_vIF1] at hIF
    rw [step_view_vID1] at hID
    rw [step_view_vEX1] at hEX
    rw [step_view_vMEM1] at hMEM
    refine ⟨?_, ?_, ?_, ?_⟩
    · rcases hv : (step (stepN m (initState p))).if_id.valid with _ | _
      · rfl
      · rw [hv] at hIF; simp at hIF; simp [hIF] at w1; rw [hv] at w1; exact Bool.noConfusion w1
    · rcases hv : (step (stepN m (initState p))).id_ex.valid with _ | _
      · rfl
      · rw [hv] at hID; simp at hID; simp [hID] at w2; rw [hv] at w2; exact Bool.noConfusion w2
    · rcases hv : (step (stepN m (initState p))).ex_mem.valid with _ | _
      · rfl
      · rw [hv] at hEX; simp at hEX; simp [hEX] at w3; rw [hv] at w3; exact Bool.noConfusion w3
    · rcases hv : (step (stepN m (initState p))).mem_wb.valid with _ | _
      · rfl
      · rw [hv] at hMEM; simp at hMEM; simp [hMEM] at w4; rw [hv] at w4; exact Bool.noConfusion w4

theorem run_cycles_le1 (fuel : Nat) (s : CPUState) :
    (run fuel s).cycles ≤ s.cycles + fuel := by
  induction fuel generalizing s with
  | zero => simp [run]
  | succ f ih =>
    unfold run
    split
    · omega
    · have := ih (step s)
      rw [step_cycles1] at this
      omega

end CPUv1

/-- Claim C2 (amended): with a cycle limit, `run` performs at most that
many additional cycles; and whenever the drain condition holds (the `run`
guard fails), all four latches are invalid and the pc is at or past the
program end — in both variants.  (Unconditional termination, the part the
counterexample refutes, is dropped.) -/
theorem claim_C2_amended (p : List Instr) (n fuel : Nat) (s : CPUState) :
    (CPUv1.halted (CPUv1.stepN n (CPUv1.initState p)) = true →
      latchesInvalid (CPUv1.stepN n (CPUv1.initState p)) ∧
        p.length ≤ (CPUv1.stepN n (CPUv1.initState p)).pc) ∧
    (CPUv2.halted (CPUv2.stepN n (CPUv2.initState p)) = true →
      latchesInvalid (CPUv2.stepN n (CPUv2.initState p)) ∧
        p.length ≤ (CPUv2.stepN n (CPUv2.initState p)).pc) ∧
    (CPUv1.run fuel s).cycles ≤ s.cycles + fuel ∧
    (CPUv2.run fuel s).cycles ≤ s.cycles + fuel :=
  ⟨CPUv1.halted_latchesInvalid1 p n, CPUv2.halted_latchesInvalid p n,
   CPUv1.run_cycles_le1 fuel s, CPUv2.run_cycles_le fuel s⟩

/-- Witness for the amended C2 on the empty program. -/
theorem claim_C2_witness :
    (latchesInvalid (CPUv1.stepN 0 (CPUv1.initState [])) ∧
      List.length ([] : List Instr) ≤ (CPUv1.stepN 0 (CPUv1.initState [])).pc) ∧
    (latchesInvalid (CPUv2.stepN 0 (CPUv2.initState [])) ∧
      List.length ([] : List Instr) ≤ (CPUv2.stepN 0 (CPUv2.initState [])).pc) ∧
    (CPUv1.run 2 (CPUv1.initState [])).cycles ≤ (CPUv1.initState []).cycles + 2 ∧
    (CPUv2.run 2 (CPUv1.initState [])).cycles ≤ (CPUv1.initState []).cycles + 2 :=
  ⟨(claim_C2_amended [] 0 2 (CPUv1.initState [])).1 (by decide),
   (claim_C2_amended [] 0 2 (CPUv1.initState [])).2.1 (by decide),
   (claim_C2_amended [] 0 2 (CPUv1.initState [])).2.2.1,
   (claim_C2_amended [] 0 2 (CPUv1.initState [])).2.2.2⟩

namespace CPUv2

/-- EX either leaves the branch counter alone, or it took a branch: then
`flush` is raised, IF/ID is invalidated and the pc moved to the target. -/
theorem ex_taken_cases (t : CPUState) :
    (execute_stage t).branches_taken = t.branches_taken ∨
    ((execute_stage t).branches_taken = t.branches_taken + 1 ∧
     (execute_stage t).flush = true ∧
     (execute_stage t).if_id = ⟨false, none, (execute_stage t).pc⟩) := by
  unfold execute_stage; dsimp only; repeat' split
  all_goals first
  | exact Or.inl rfl
  | exact Or.inr ⟨rfl, rfl, rfl⟩

theorem step_branches_eq (s : CPUState) :
    (step s).branches_taken =
      (execute_stage (memory_stage (writeback_stage
        { s with cycles := s.cycles + 1 }))).branches_taken := by
  unfold step; dsimp only; split <;> simp

theorem step_if_id_eq (s : CPUState) :
    (step s).if_id =
      (fetch_stage (decode_stage (execute_stage (memory_stage (writeback_stage
        { s with cycles := s.cycles + 1 }))))).if_id := by
  unfold step; dsimp only; split <;> rfl

theorem step_pc_eq (s : CPUState) :
    (step s).pc =
      (fetch_stage (decode_stage (execute_stage (memory_stage (writeback_stage
        { s with cycles := s.cycles + 1 }))))).pc := by
  unfold step; dsimp only; split <;> rfl

end CPUv2

namespace CPUv1

/-- EX either leaves the branch counter alone, or it took a branch: then
`flush` is raised and the pc moved (IF/ID is handled by `step`). -/
theorem ex_taken_cases1 (t : CPUState) :
    (execute_stage t).branches_taken = t.branches_taken ∨
    ((execute_stage t).branches_taken = t.branches_taken + 1 ∧
     (execute_stage t).flush = true) := by
  unfold execute_stage; dsimp only; repeat' split
  all_goals first
  | exact Or.inl rfl
  | exact Or.inr ⟨rfl, rfl⟩

theorem step_branches_eq1 (s : CPUState) :
    (step s).branches_taken =
      (execute_stage (memory_stage (writeback_stage
        { s with cycles := s.cycles + 1 }))).branches_taken := by
  unfold step; dsimp only; split <;> simp

end CPUv1

namespace CPUv1

/-- Decode on an invalid IF/ID (no flush) only inserts a bubble in ID/EX. -/
theorem decode_not_valid (t : CPUState) (hf : t.flush = false)
    (hv : t.if_id.valid = false) :
    decode_stage t =
      { t with
        id_ex := ⟨false, none, 0, 0, 0⟩,
        view := { t.view with vID := none } } := by
  unfold decode_stage; simp [hf, hv]

end CPUv1

/-- Claim C3 (amended): in a cycle that takes a BEQ or executes a JUMP,
the flush invalidates IF/ID before ID and IF run; at the end of that cycle
IF/ID is invalid unless the fetch stage refilled it from the new pc (no
stall pending and the branch target in range), in which case it holds the
instruction at the new pc and the pc has advanced past it.  This holds in
both variants. -/
theorem claim_C3_amended (s : CPUState) :
    ((CPUv1.step s).branches_taken = s.branches_taken + 1 →
      (CPUv1.step s).if_id.valid = false ∨
      ((CPUv1.step s).if_id.valid = true ∧
       (CPUv1.step s).if_id.instruction =
         some (s.instructions.getD (CPUv1.step s).if_id.pc nopInstr) ∧
       (CPUv1.step s).pc = (CPUv1.step s).if_id.pc + 1)) ∧
    ((CPUv2.step s).branches_taken = s.branches_taken + 1 →
      (CPUv2.step s).if_id.valid = false ∨
      ((CPUv2.step s).if_id.valid = true ∧
       (CPUv2.step s).if_id.instruction =
         some (s.instructions.getD (CPUv2.step s).if_id.pc nopInstr) ∧
       (CPUv2.step s).pc = (CPUv2.step s).if_id.pc + 1)) := by
  constructor
  · intro h
    have hb : (CPUv1.execute_stage (CPUv1.memory_stage (CPUv1.writeback_stage
        { s with cycles := s.cycles + 1 }))).branches_taken =
        (CPUv1.memory_stage (CPUv1.writeback_stage
          { s with cycles := s.cycles + 1 })).branches_taken + 1 := by
      rw [← CPUv1.step_branches_eq1, h]; simp
    rcases CPUv1.ex_taken_cases1 (CPUv1.memory_stage (CPUv1.writeback_stage
        { s with cycles := s.cycles + 1 })) with hc | ⟨_, hflush⟩
    · omega
    · have e1 : CPUv1.step s = CPUv1.update_pipeline_view (CPUv1.fetch_stage
          (CPUv1.decode_stage
            { CPUv1.execute_stage (CPUv1.memory_stage (CPUv1.writeback_stage
                { s with cycles := s.cycles + 1 })) with
              if_id := ⟨false, none, (CPUv1.execute_stage (CPUv1.memory_stage
                (CPUv1.writeback_stage { s with cycles := s.cycles + 1 }))).pc⟩,
              view := { (CPUv1.execute_stage (CPUv1.memory_stage
                (CPUv1.writeback_stage { s with cycles := s.cycles + 1 }))).view with
                vIF := none },
              flush := false })) := by
        unfold CPUv1.step
        dsimp only
        rw [hflush]
        rfl
      rw [e1, CPUv1.decode_not_valid _ rfl rfl]
      unfold CPUv1.fetch_stage
      dsimp only
      repeat' split
      · exact Or.inl rfl
      · refine Or.inr ⟨rfl, ?_, rfl⟩
        simp
      · exact Or.inl rfl
  · intro h
    have hb : (CPUv2.execute_stage (CPUv2.memory_stage (CPUv2.writeback_stage
        { s with cycles := s.cycles + 1 }))).branches_taken =
        (CPUv2.memory_stage (CPUv2.writeback_stage
          { s with cycles := s.cycles + 1 })).branches_taken + 1 := by
      rw [← CPUv2.step_branches_eq, h]; simp
    rcases CPUv2.ex_taken_cases (CPUv2.memory_stage (CPUv2.writeback_stage
        { s with cycles := s.cycles + 1 })) with hc | ⟨_, hflush, _⟩
    · omega
    · rw [CPUv2.step_if_id_eq, CPUv2.step_pc_eq, CPUv2.decode_on_flush _ hflush]
      unfold CPUv2.fetch_stage
      dsimp only
      repeat' split
      · exact Or.inl rfl
      · refine Or.inr ⟨rfl, ?_, rfl⟩
        simp
      · exact Or.inl rfl

/-- Counterexample to C3 as stated: on `[JUMP 1, ADD]` the cycle that
executes the JUMP ends with IF/ID valid — it holds the freshly fetched
branch-target instruction, not a bubble. -/
theorem claim_C3_counterexample :
    (CPUv2.step (CPUv2.stepN 2 (CPUv2.initState progJump1Add))).branches_taken =
      (CPUv2.stepN 2 (CPUv2.initState progJump1Add)).branches_taken + 1 ∧
    (CPUv2.step (CPUv2.stepN 2 (CPUv2.initState progJump1Add))).if_id.valid = true := by
  constructor
  · decide
  · decide

/-- Witness for the amended C3 at the same concrete branch cycle. -/
theorem claim_C3_witness :
    (CPUv2.step (CPUv2.stepN 2 (CPUv2.initState progJump1Add))).if_id.valid = false ∨
    ((CPUv2.step (CPUv2.stepN 2 (CPUv2.initState progJump1Add))).if_id.valid = true ∧
     (CPUv2.step (CPUv2.stepN 2 (CPUv2.initState progJump1Add))).if_id.instruction =
       some ((CPUv2.stepN 2 (CPUv2.initState progJump1Add)).instructions.getD
         (CPUv2.step (CPUv2.stepN 2 (CPUv2.initState progJump1Add))).if_id.pc nopInstr) ∧
     (CPUv2.step (CPUv2.stepN 2 (CPUv2.initState progJump1Add))).pc =
       (CPUv2.step (CPUv2.stepN 2 (CPUv2.initState progJump1Add))).if_id.pc + 1) :=
  (claim_C3_amended (CPUv2.stepN 2 (CPUv2.initState progJump1Add))).2 (by decide)

/-- `[JUMP 2, ADD R1=R2+R3, STORE R1→mem[100]]`: the jump skips the
producer ADD and lands directly on the STORE. -/
def progSkipStore : List Instr :=
  [{ op := Op.JUMP, target := some 2 },
   { op := Op.ADD, rd := some 1, rs1 := some 2, rs2 := some 3 },
   { op := Op.STORE, rs := some 1, addr := some 100 }]

/-- Start state for `progSkipStore`: R1 = 5, R2 = 10, R3 = 20. -/
def skipStoreStart : CPUState :=
  { CPUv1.initState progSkipStore with
    registers := (((List.replicate 32 0).set 1 5).set 2 10).set 3 20 }

set_option maxRecDepth 40000 in
/-- Counterexample to C9 as stated: instruction 1 writes R1 and
instruction 2 is a STORE with rs = R1, yet the value stored is 5 (the old
R1), not instruction 1's result 30 = R2+R3, because the jump skips the
producer; program-order adjacency alone does not make the STORE see the
producer's result. -/
theorem claim_C9_counterexample :
    CPUv1.halted (CPUv1.stepN 7 skipStoreStart) = true ∧
    (CPUv1.stepN 7 skipStoreStart).memory.getD 100 0 = 5 ∧
    ((5 : Int) ≠ 10 + 20) := by
  refine ⟨by decide, by decide, by decide⟩

namespace CPUv1

theorem wb_writes1 (t : CPUState) (prod : Instr) (r : Nat)
    (hv : t.mem_wb.valid = true) (hi : t.mem_wb.instruction = some prod)
    (hop : prod.op = Op.ADD ∨ prod.op = Op.SUB ∨ prod.op = Op.MUL ∨
      prod.op = Op.LOAD)
    (hrd : prod.rd = some r) (hr : r ≠ 0) :
    (writeback_stage t).registers = t.registers.set r t.mem_wb.result := by
  unfold writeback_stage
  simp [hv, hi, hrd, hr, hop]

theorem mem_store1 (t : CPUState) (st : Instr) (r : Nat)
    (hv : t.ex_mem.valid = true) (hi : t.ex_mem.instruction = some st)
    (hop : st.op = Op.STORE) (hrs : st.rs = some r)
    (hin : 0 ≤ t.ex_mem.alu_result ∧
      t.ex_mem.alu_result < (t.memory.length : Int)) :
    (memory_stage t).memory =
      t.memory.set t.ex_mem.alu_result.toNat (t.registers.getD r 0) := by
  unfold memory_stage
  simp [hv, hi, hop, hrs, hin]

theorem step_memory_eq1 (s : CPUState) :
    (step s).memory =
      (memory_stage (writeback_stage { s with cycles := s.cycles + 1 })).memory := by
  unfold step; dsimp only; split <;> simp

end CPUv1

namespace CPUv2

theorem wb_writes (t : CPUState) (prod : Instr) (r : Nat)
    (hv : t.mem_wb.valid = true) (hi : t.mem_wb.instruction = some prod)
    (hop : prod.op = Op.ADD ∨ prod.op = Op.SUB ∨ prod.op = Op.MUL ∨
      prod.op = Op.LOAD)
    (hrd : prod.rd = some r) (hr : r ≠ 0) :
    (writeback_stage t).registers = t.registers.set r t.mem_wb.result := by
  unfold writeback_stage
  simp [hv, hi, hrd, hr, hop]

theorem mem_store (t : CPUState) (st : Instr) (r : Nat)
    (hv : t.ex_mem.valid = true) (hi : t.ex_mem.instruction = some st)
    (hop : st.op = Op.STORE) (hrs : st.rs = some r)
    (hin : 0 ≤ t.ex_mem.alu_result ∧
      t.ex_mem.alu_result < (t.memory.length : Int)) :
    (memory_stage t).memory =
      t.memory.set t.ex_mem.alu_result.toNat (t.registers.getD r 0) := by
  unfold memory_stage
  simp [hv, hi, hop, hrs, hin]

theorem step_memory_eq (s : CPUState) :
    (step s).memory =
      (memory_stage (writeback_stage { s with cycles := s.cycles + 1 })).memory := by
  unfold step; dsimp only; split <;> simp

end CPUv2

/-- Claim C9 (amended): whenever the producer's result sits in MEM/WB (a
register-writing op with nonzero destination r) and the dependent STORE
(with rs = r) sits in EX/MEM with an in-range address — the configuration
that back-to-back execution produces — the value the STORE writes to data
memory in that cycle is exactly the producer's result: WB runs before MEM
inside a step, so the write-back lands before the STORE reads the register
file.  Holds in both variants. -/
theorem claim_C9_amended (s : CPUState) (prod st : Instr) (r : Nat)
    (hv : s.mem_wb.valid = true) (hi : s.mem_wb.instruction = some prod)
    (hop : prod.op = Op.ADD ∨ prod.op = Op.SUB ∨ prod.op = Op.MUL ∨
      prod.op = Op.LOAD)
    (hrd : prod.rd = some r) (hr : r ≠ 0) (hrlen : r < s.registers.length)
    (hv2 : s.ex_mem.valid = true) (hi2 : s.ex_mem.instruction = some st)
    (hop2 : st.op = Op.STORE) (hrs : st.rs = some r)
    (ha0 : 0 ≤ s.ex_mem.alu_result)
    (halen : s.ex_mem.alu_result < (s.memory.length : Int)) :
    (CPUv1.step s).memory.getD s.ex_mem.alu_result.toNat 0 = s.mem_wb.result ∧
    (CPUv2.step s).memory.getD s.ex_mem.alu_result.toNat 0 = s.mem_wb.result := by
  have hrv : (s.registers.set r s.mem_wb.result).getD r 0 = s.mem_wb.result := by
    rw [List.getD_eq_getElem?_getD, List.getElem?_set_eq_of_lt _ (by simpa using hrlen)]
    rfl
  constructor
  · rw [CPUv1.step_memory_eq1,
      CPUv1.mem_store1 _ st r (by rw [CPUv1.wb_ex_mem1]; exact hv2)
        (by rw [CPUv1.wb_ex_mem1]; exact hi2) hop2 hrs
        (by rw [CPUv1.wb_ex_mem1, CPUv1.wb_memory1]; exact ⟨ha0, halen⟩),
      CPUv1.wb_ex_mem1, CPUv1.wb_memory1,
      CPUv1.wb_writes1 { s with cycles := s.cycles + 1 } prod r hv hi hop hrd hr]
    show (s.memory.set s.ex_mem.alu_result.toNat
      ((s.registers.set r s.mem_wb.result).getD r 0)).getD
        s.ex_mem.alu_result.toNat 0 = s.mem_wb.result
    rw [hrv, List.getD_eq_getElem?_getD,
      List.getElem?_set_eq_of_lt _ (by omega)]
    rfl
  · rw [CPUv2.step_memory_eq,
      CPUv2.mem_store _ st r (by rw [CPUv2.wb_ex_mem]; exact hv2)
        (by rw [CPUv2.wb_ex_mem]; exact hi2) hop2 hrs
        (by rw [CPUv2.wb_ex_mem, CPUv2.wb_memory]; exact ⟨ha0, halen⟩),
      CPUv2.wb_ex_mem, CPUv2.wb_memory,
      CPUv2.wb_writes { s with cycles := s.cycles + 1 } prod r hv hi hop hrd hr]
    show (s.memory.set s.ex_mem.alu_result.toNat
      ((s.registers.set r s.mem_wb.result).getD r 0)).getD
        s.ex_mem.alu_result.toNat 0 = s.mem_wb.result
    rw [hrv, List.getD_eq_getElem?_getD,
      List.getElem?_set_eq_of_lt _ (by omega)]
    rfl

/-- The producer `ADD R1=R2+R3` used in the C9 witness configuration. -/
def prodADD : Instr := { op := Op.ADD, rd := some 1, rs1 := some 2, rs2 := some 3 }

/-- The consumer `STORE R1, 100` used in the C9 witness configuration. -/
def storeR1 : Instr := { op := Op.STORE, rs := some 1, addr := some 100 }

/-- The latch configuration adjacent execution produces: an ADD result 30
for R1 in MEM/WB, and a STORE of R1 to address 100 in EX/MEM. -/
def adjStoreState : CPUState :=
  { CPUv1.initState [] with
    mem_wb := ⟨true, some prodADD, 30⟩,
    ex_mem := ⟨true, some storeR1, 100, 0⟩ }

set_option maxRecDepth 40000 in
/-- Witness for the amended C9 at the concrete adjacent configuration. -/
theorem claim_C9_witness :
    (CPUv1.step adjStoreState).memory.getD
        adjStoreState.ex_mem.alu_result.toNat 0 = adjStoreState.mem_wb.result ∧
    (CPUv2.step adjStoreState).memory.getD
        adjStoreState.ex_mem.alu_result.toNat 0 = adjStoreState.mem_wb.result :=
  claim_C9_amended adjStoreState prodADD storeR1 1
    rfl rfl (Or.inl rfl) rfl (by decide) (by decide) rfl rfl rfl rfl
    (by decide) (by decide)

/-- The ID/EX latch holds no control-flow instruction: the condition under
which EX cannot take a branch this cycle. -/
def noBranchInIDEX (s : CPUState) : Prop :=
  ∀ i, s.id_ex.instruction = some i → i.op ≠ Op.BEQ ∧ i.op ≠ Op.JUMP

/-- With no BEQ/JUMP in ID/EX the two execute stages coincide: they differ
only in the taken-branch code paths. -/
theorem ex_stages_eq (t : CPUState) (h : noBranchInIDEX t) :
    CPUv1.execute_stage t = CPUv2.execute_stage t := by
  cases hv : t.id_ex.valid
  · simp [CPUv1.execute_stage, CPUv2.execute_stage, hv]
  · cases hi : t.id_ex.instruction with
    | none => simp [CPUv1.execute_stage, CPUv2.execute_stage, hv, hi]
    | some i =>
      obtain ⟨hb1, hb2⟩ := h i hi
      cases hop : i.op <;>
        simp_all [CPUv1.execute_stage, CPUv2.execute_stage, hv, hi, hop]

/-- With no BEQ/JUMP in ID/EX, EX leaves the flush flag alone. -/
theorem ex_flush_eq (t : CPUState) (h : noBranchInIDEX t) :
    (CPUv2.execute_stage t).flush = t.flush := by
  cases hv : t.id_ex.valid
  · simp [CPUv2.execute_stage, hv]
  · cases hi : t.id_ex.instruction with
    | none => simp [CPUv2.execute_stage, hv, hi]
    | some i =>
      obtain ⟨hb1, hb2⟩ := h i hi
      cases hop : i.op <;> simp_all [CPUv2.execute_stage, hv, hi, hop]

/-- The two fetch stages differ only in a view entry that the subsequent
view rebuild overwrites. -/
theorem upd_fetch_eq (x : CPUState) :
    CPUv1.update_pipeline_view (CPUv1.fetch_stage x) =
      CPUv2.update_pipeline_view (CPUv2.fetch_stage x) := by
  unfold CPUv1.update_pipeline_view CPUv2.update_pipeline_view
    CPUv1.fetch_stage CPUv2.fetch_stage
  dsimp only
  repeat' split
  all_goals simp_all

/-- On a state with the flush flag down and no control-flow instruction in
ID/EX, the two variants' cycles coincide exactly. -/
theorem steps_eq (s : CPUState) (hf : s.flush = false)
    (hnb : noBranchInIDEX s) :
    CPUv1.step s = CPUv2.step s := by
  have hnb2 : noBranchInIDEX (CPUv2.memory_stage (CPUv2.writeback_stage
      { s with cycles := s.cycles + 1 })) := by
    intro i hi
    exact hnb i (by simpa using hi)
  unfold CPUv1.step CPUv2.step
  dsimp only
  rw [show CPUv1.writeback_stage = CPUv2.writeback_stage from rfl,
    show CPUv1.memory_stage = CPUv2.memory_stage from rfl,
    show CPUv1.decode_stage = CPUv2.decode_stage from rfl,
    ex_stages_eq _ hnb2]
  have hfl : (CPUv2.execute_stage (CPUv2.memory_stage (CPUv2.writeback_stage
      { s with cycles := s.cycles + 1 }))).flush = false := by
    rw [ex_flush_eq _ hnb2]
    simpa using hf
  rw [if_neg (by rw [hfl]; exact fun hh => Bool.noConfusion hh)]
  rw [upd_fetch_eq]
  rw [if_neg ?_]
  simp [hfl]

/-- Both front-end latches only ever hold instructions of the loaded
program. -/
def progSourced (p : List Instr) (s : CPUState) : Prop :=
  (∀ i, s.if_id.instruction = some i → i ∈ p) ∧
  (∀ i, s.id_ex.instruction = some i → i ∈ p)

namespace CPUv2

theorem ex_ifid_cases (x : CPUState) :
    (execute_stage x).if_id = x.if_id ∨
      (execute_stage x).if_id.instruction = none := by
  unfold execute_stage; dsimp only; repeat' split
  all_goals first
  | exact Or.inl rfl
  | exact Or.inr rfl

theorem dec_ifid_cases (x : CPUState) :
    (decode_stage x).if_id = x.if_id ∨
      (decode_stage x).if_id.instruction = none := by
  unfold decode_stage; dsimp only; repeat' split
  all_goals first
  | exact Or.inl rfl
  | exact Or.inr rfl

theorem dec_idex_src (x : CPUState) :
    ∀ i, (decode_stage x).id_ex.instruction = some i →
      x.if_id.instruction = some i ∨ x.id_ex.instruction = some i := by
  intro i hi
  unfold decode_stage at hi
  dsimp only at hi
  repeat' split at hi
  all_goals simp_all

theorem fetch_ifid_src (x : CPUState) :
    ∀ i, (fetch_stage x).if_id.instruction = some i →
      x.if_id.instruction = some i ∨ i ∈ x.instructions := by
  intro i hi
  unfold fetch_stage at hi
  dsimp only at hi
  split at hi
  · exact Or.inl hi
  · split at hi
    · right
      obtain rfl : x.instructions.getD x.pc nopInstr = i := by
        simpa using hi
      rw [List.getD_eq_getElem _ _ (by assumption)]
      exact List.getElem_mem (by assumption)
    · exact absurd hi (by simp)

theorem step_flush_false (s : CPUState) : (step s).flush = false := by
  unfold step; dsimp only
  split
  · rfl
  · simp_all

theorem step_src (p : List Instr) (s : CPUState) (hinstr : s.instructions = p)
    (h : progSourced p s) : progSourced p (step s) := by
  unfold step; dsimp only
  set a := memory_stage (writeback_stage { s with cycles := s.cycles + 1 }) with ha
  have hA : progSourced p a := by
    constructor <;> intro i hi
    · exact h.1 i (by simpa [ha] using hi)
    · exact h.2 i (by simpa [ha] using hi)
  have hB : progSourced p (execute_stage a) := by
    constructor <;> intro i hi
    · rcases ex_ifid_cases a with he | he
      · exact hA.1 i (he ▸ hi)
      · rw [he] at hi; exact Option.noConfusion hi
    · exact hA.2 i (by simpa using hi)
  have hC : progSourced p (decode_stage (execute_stage a)) := by
    constructor <;> intro i hi
    · rcases dec_ifid_cases (execute_stage a) with he | he
      · exact hB.1 i (he ▸ hi)
      · rw [he] at hi; exact Option.noConfusion hi
    · rcases dec_idex_src _ i hi with he | he
      · exact hB.1 i he
      · exact hB.2 i he
  have hD : progSourced p (fetch_stage (decode_stage (execute_stage a))) := by
    constructor <;> intro i hi
    · rcases fetch_ifid_src _ i hi with he | he
      · exact hC.1 i he
      · rw [show (decode_stage (execute_stage a)).instructions = p by
          simp [ha, hinstr]] at he
        exact he
    · exact hC.2 i (by simpa using hi)
  split
  · exact hD
  · exact hD

end CPUv2

/-- Claim C1 (amended): for every program containing no BEQ and no JUMP,
the two pipeline variants are step-for-step identical — after any number of
cycles the full states (registers, data memory, latches and all four
counters) coincide, so their runs are observably equivalent.  (The
counterexample shows the equivalence fails once a branch is taken.) -/
theorem claim_C1_amended (p : List Instr)
    (hp : ∀ i ∈ p, i.op ≠ Op.BEQ ∧ i.op ≠ Op.JUMP) (n : Nat) :
    CPUv1.stepN n (CPUv1.initState p) = CPUv2.stepN n (CPUv2.initState p) := by
  suffices h : ∀ m, CPUv1.stepN m (CPUv1.initState p) =
      CPUv2.stepN m (CPUv2.initState p) ∧
      (CPUv2.stepN m (CPUv2.initState p)).flush = false ∧
      (CPUv2.stepN m (CPUv2.initState p)).instructions = p ∧
      progSourced p (CPUv2.stepN m (CPUv2.initState p)) from (h n).1
  intro m
  induction m with
  | zero =>
    exact ⟨rfl, rfl, rfl, fun i hi => Option.noConfusion hi,
      fun i hi => Option.noConfusion hi⟩
  | succ k ih =>
    obtain ⟨heq, hf, hinstr, hsrc⟩ := ih
    have hnb : noBranchInIDEX (CPUv2.stepN k (CPUv2.initState p)) := by
      intro i hi
      exact hp i (hsrc.2 i hi)
    rw [CPUv1.stepN_succ_r1, CPUv2.stepN_succ_r, heq]
    refine ⟨steps_eq _ hf hnb, CPUv2.step_flush_false _, ?_,
      CPUv2.step_src p _ hinstr hsrc⟩
    rw [CPUv2.step_instructions, hinstr]

/-- Witness for the amended C1: a branch-free three-instruction program
runs identically on both variants for 9 cycles. -/
theorem claim_C1_witness :
    CPUv1.stepN 9 (CPUv1.initState
      [{ op := Op.ADD, rd := some 1, rs1 := some 2, rs2 := some 3 },
       { op := Op.LOAD, rd := some 4, addr := some 8 },
       { op := Op.STORE, rs := some 1, addr := some 9 }]) =
    CPUv2.stepN 9 (CPUv2.initState
      [{ op := Op.ADD, rd := some 1, rs1 := some 2, rs2 := some 3 },
       { op := Op.LOAD, rd := some 4, addr := some 8 },
       { op := Op.STORE, rs := some 1, addr := some 9 }]) :=
  claim_C1_amended _ (by decide) 9
